import Mathlib

/-
  Verification development for `libworkspace.c`, an LD_PRELOAD library that
  intercepts glibc file operations (openat / fstatat / faccessat / fopen and
  their variants), proxies requests for `/workspace/*` paths to a host file
  server over a vsock channel, and caches the results under `/tmp/.wscache/`.

  The C code is shallowly embedded:
  * machine integers become `Nat` with explicit `% 2 ^ w` / bitwise masking
    where the C code casts or masks;
  * the byte stream of one request/response exchange is a `List Nat`
    (each element an octet; receipt normalizes with `% 256`, mirroring
    the `uint8_t` buffers the C code receives into);
  * the host at the far end of the vsock is an explicit oracle (`Host`)
    mapping each sent request payload to the raw byte stream the client
    will be able to `recv` for it;
  * the local filesystem visible to the library is an association list
    from absolute path strings to nodes (`FS`); the C library only ever
    creates cache files and directories, and only consults existence,
    so this is the whole interface it uses;
  * `errno` / return-value pairs become the `Ret` structure, and the real
    (un-intercepted) libc functions are oracle fields of the environment
    `Env`, so that "delegates to the real implementation" is an equality
    of the model's result with the oracle applied to the same arguments.

  Paths are modelled at the level of characters; the claims only exercise
  ASCII paths, where C byte strings and Lean strings coincide.
-/

namespace LibWorkspace

/- ---- Protocol constants (libworkspace.c lines 48-62) ---- -/

def FILE_SERVER_PORT : Nat := 10001
def OP_STAT : Nat := 1
def OP_READ : Nat := 2
def OP_READDIR : Nat := 3
def STATUS_OK : Nat := 0
def STATUS_NOENT : Nat := 1

def WORKSPACE_PREFIX : String := "/workspace/"
def WORKSPACE_PREFIX_LEN : Nat := 11
def WORKSPACE_DIR : String := "/workspace"
def CACHE_DIR : String := "/tmp/.wscache/"
def CACHE_DIR_LEN : Nat := 14
def READ_CHUNK_SIZE : Nat := 1024 * 1024
def FRAME_MAX : Nat := 16 * 1024 * 1024
def PATH_MAX : Nat := 4096

/- ---- Platform constants (fcntl.h / sys/stat.h / errno.h, Linux) ---- -/

def O_RDONLY : Nat := 0
def O_WRONLY : Nat := 1
def O_RDWR : Nat := 2
def O_CREAT : Nat := 64
def O_EXCL : Nat := 128
def O_DIRECTORY : Nat := 65536
def O_TMPFILE : Nat := 4194304
def W_OK : Nat := 2
def AT_SYMLINK_NOFOLLOW : Nat := 256
def EROFS : Nat := 30
def ENOENT : Nat := 2
def S_IFMT : Nat := 61440
def S_IFDIR : Nat := 16384
def S_IFREG : Nat := 32768

/-- The `S_ISDIR` macro: `(m & S_IFMT) == S_IFDIR`. -/
def S_ISDIR (m : Nat) : Bool := Nat.land m S_IFMT == S_IFDIR

/- ---- Big-endian packing, as written byte by byte in the C code ---- -/

/-- Two-byte big-endian encoding: `(n >> 8) & 0xFF, n & 0xFF`. -/
def be16 (n : Nat) : List Nat := [n / 2 ^ 8 % 256, n % 256]

/-- Four-byte big-endian encoding, as in `send_request` / `remote_read_chunk`. -/
def be32 (n : Nat) : List Nat :=
  [n / 2 ^ 24 % 256, n / 2 ^ 16 % 256, n / 2 ^ 8 % 256, n % 256]

/-- Eight-byte big-endian encoding, as in `remote_read_chunk`. -/
def be64 (n : Nat) : List Nat :=
  [n / 2 ^ 56 % 256, n / 2 ^ 48 % 256, n / 2 ^ 40 % 256, n / 2 ^ 32 % 256,
   n / 2 ^ 24 % 256, n / 2 ^ 16 % 256, n / 2 ^ 8 % 256, n % 256]

/-- Read a 32-bit big-endian integer from the first four octets of a buffer.
    Callers in the C code only do this after `recv_all` guaranteed at least
    four bytes; the default 0 is never observable in those flows. -/
def rd32 : List Nat → Nat
  | b0 :: b1 :: b2 :: b3 :: _ => ((b0 * 256 + b1) * 256 + b2) * 256 + b3
  | _ => 0

/-- Read a 64-bit big-endian integer from the first eight octets of a buffer. -/
def rd64 : List Nat → Nat
  | b0 :: b1 :: b2 :: b3 :: b4 :: b5 :: b6 :: b7 :: _ =>
      ((((((b0 * 256 + b1) * 256 + b2) * 256 + b3) * 256 + b4) * 256 + b5)
        * 256 + b6) * 256 + b7
  | _ => 0

/- ---- Request payloads built by remote_stat / remote_read_chunk ---- -/

/-- Bytes of a path string as sent on the wire (ASCII paths: one octet per
    character). -/
def strBytes (s : String) : List Nat := s.data.map (fun c => c.toNat % 256)

/-- `remote_stat` request payload: `[op=1][2-byte path_len][path]`.
    `path_len` is `strlen` cast to `uint16_t`. -/
def stat_msg (relB : List Nat) : List Nat :=
  OP_STAT :: (be16 (relB.length % 2 ^ 16) ++ relB.take (relB.length % 2 ^ 16))

/-- `remote_read_chunk` request payload:
    `[op=2][2-byte path_len][path][8-byte offset][4-byte len]`. -/
def read_msg (relB : List Nat) (offset len : Nat) : List Nat :=
  OP_READ :: (be16 (relB.length % 2 ^ 16) ++ relB.take (relB.length % 2 ^ 16)
    ++ be64 offset ++ be32 len)

/- ---- The vsock transport and the host oracle ---- -/

/-- What the host does for one request/response exchange: either the guest's
    `send` fails (host gone), or the guest may `recv` exactly the octets of
    `stream` (a closed / stalled connection mid-frame shows up as a stream
    shorter than what its length header promises). -/
inductive HostReply where
  | sendFail : HostReply
  | stream : List Nat → HostReply
deriving Repr, DecidableEq

/-- The host file server as an oracle: whether `connect` succeeds, and the
    response behaviour for each request payload. -/
structure Host where
  connectOk : Bool
  reply : List Nat → HostReply

/-- Connection state: the `vsock_fd >= 0` flag plus a count of successful
    `connect` calls (so "establishes a brand-new connection" is observable). -/
structure Conn where
  connected : Bool
  connects : Nat
deriving Repr, DecidableEq

/-- `vsock_connect`: no-op when already connected, otherwise attempt to
    connect (`none` = failure, connection state unchanged). -/
def vsock_connect (h : Host) (c : Conn) : Option Conn :=
  if c.connected then some c
  else if h.connectOk then some { connected := true, connects := c.connects + 1 }
  else none

/-- Protocol-client state: the connection plus the trace of request payloads
    sent so far (the observable "remote calls" of the spec). -/
structure Net where
  conn : Conn
  reqs : List (List Nat)
deriving Repr, DecidableEq

/-- `send_request`: send one length-prefixed frame, receive one.
    Returns the received payload, or `none` on any transport or framing
    error (send failure, short header, declared length zero or above
    16 MiB, short payload receive).  Receipt stores octets into `uint8_t`
    buffers, hence the `% 256` normalization. -/
def send_request (reply : HostReply) : Option (List Nat) :=
  match reply with
  | HostReply.sendFail => none
  | HostReply.stream s0 =>
    let s := s0.map (fun b => b % 256)
    if s.length < 4 then none
    else
      let resp_len := rd32 s
      if resp_len = 0 ∨ FRAME_MAX < resp_len then none
      else if (s.drop 4).length < resp_len then none
      else some ((s.drop 4).take resp_len)

/-- Stat result as mapped onto `struct stat` by `remote_stat`. -/
structure StatResult where
  mode : Nat
  size : Nat
  mtime : Nat
  nlink : Nat
  blksize : Nat
  blocks : Nat
deriving Repr, DecidableEq

/-- `remote_stat`: one STAT exchange.  `none` = the C function's `-1`.
    Transport failure tears the connection down before returning; a
    response that is well-framed but not `STATUS_OK`, or shorter than the
    22-byte stat layout, returns the error with the connection retained
    (exactly as in the C code, which only calls `vsock_disconnect` when
    `send_request` returns NULL). -/
def remote_stat (h : Host) (relB : List Nat) (net : Net) : Option StatResult × Net :=
  let msg := stat_msg relB
  match vsock_connect h net.conn with
  | none => (none, net)
  | some c =>
    let net' : Net := { conn := c, reqs := net.reqs ++ [msg] }
    match send_request (h.reply msg) with
    | none => (none, { net' with conn := { c with connected := false } })
    | some resp =>
      if resp.headD 1 ≠ STATUS_OK then (none, net')
      else if resp.length < 22 then (none, net')
      else
        let mode := rd32 (resp.drop 1)
        let size := rd64 (resp.drop 5)
        let mtime := rd64 (resp.drop 13)
        let is_dir := (resp.drop 21).headD 0
        (some
          { mode := Nat.lor mode (if is_dir ≠ 0 then S_IFDIR else S_IFREG)
            size := size
            mtime := mtime
            nlink := if is_dir ≠ 0 then 2 else 1
            blksize := 4096
            blocks := (size + 511) / 512 }, net')

/-- `remote_read_chunk`: one READ exchange.  `none` = error (`-1`); `some
    data` = success with `data` the octets delivered (`[]` = EOF).  A
    well-framed `STATUS_OK` response shorter than the 5-byte read header is
    returned as 0 bytes (the C code's `resp_len < 5` branch returns 0, not
    -1).  The double `take` realizes both clamps of the C code: `bytes_read`
    is limited to the octets actually present after the header and to the
    requested `len`. -/
def remote_read_chunk (h : Host) (relB : List Nat) (offset len : Nat) (net : Net) :
    Option (List Nat) × Net :=
  let msg := read_msg relB offset len
  match vsock_connect h net.conn with
  | none => (none, net)
  | some c =>
    let net' : Net := { conn := c, reqs := net.reqs ++ [msg] }
    match send_request (h.reply msg) with
    | none => (none, { net' with conn := { c with connected := false } })
    | some resp =>
      if resp.headD 1 ≠ STATUS_OK then (none, net')
      else if resp.length < 5 then (some [], net')
      else
        let bytes_read := rd32 (resp.drop 1)
        (some (((resp.drop 5).take bytes_read).take len), net')

/- ---- The local filesystem as seen and manipulated by the library ---- -/

/-- A local filesystem object: a regular file with its contents, or a
    directory.  The library only ever creates these two kinds. -/
inductive FSNode where
  | file (data : List Nat) : FSNode
  | dir : FSNode
deriving Repr, DecidableEq

/-- The local filesystem: an association list from absolute paths to nodes
    (most recent binding first). -/
def FS := List (String × FSNode)

instance : DecidableEq FS := inferInstanceAs (DecidableEq (List (String × FSNode)))

def fsLookup (fs : FS) (p : String) : Option FSNode :=
  match fs with
  | [] => none
  | (q, n) :: rest => if q = p then some n else fsLookup rest p

def fsRemove (fs : FS) (p : String) : FS :=
  match fs with
  | [] => []
  | (q, n) :: rest => if q = p then fsRemove rest p else (q, n) :: fsRemove rest p

/-- Bind `p` to `n`, replacing any previous binding. -/
def fsInsert (fs : FS) (p : String) (n : FSNode) : FS :=
  (p, n) :: fsRemove fs p

/-- `mkdir p` with its failure (EEXIST) ignored, as throughout the C code:
    creates the directory only when nothing exists at `p`. -/
def fsMkdir (fs : FS) (p : String) : FS :=
  match fsLookup fs p with
  | some _ => fs
  | none => fsInsert fs p FSNode.dir

/-- Append octets to a file (the `write(tmp_fd, ...)` loop writes at the
    current end of the freshly created temporary file). -/
def fsAppend (fs : FS) (p : String) (data : List Nat) : FS :=
  match fsLookup fs p with
  | some (FSNode.file d) => fsInsert fs p (FSNode.file (d ++ data))
  | _ => fsInsert fs p (FSNode.file data)

/-- `rename(src, dst)`: atomically move the node at `src` onto `dst`.  In
    every flow of the library `src` (the temporary file) exists when rename
    is called; injected rename failure is modelled separately (`Env.renameOk`). -/
def fsRename (fs : FS) (src dst : String) : FS :=
  match fsLookup fs src with
  | some n => fsInsert (fsRemove fs src) dst n
  | none => fs

/-- What the platform's `fstatat` reports for an existing cache entry.  The
    claims never depend on these values, only on the success; the mode and
    times model a fresh cache file / directory. -/
def localStat : FSNode → StatResult
  | FSNode.file d =>
      { mode := Nat.lor S_IFREG 384, size := d.length, mtime := 0, nlink := 1,
        blksize := 4096, blocks := (d.length + 511) / 512 }
  | FSNode.dir =>
      { mode := Nat.lor S_IFDIR 493, size := 4096, mtime := 0, nlink := 2,
        blksize := 4096, blocks := 8 }

/- ---- Path resolution and classification (libworkspace.c lines 101-161) ---- -/

/-- Directory context of the `*at` calls: `AT_FDCWD` or a directory
    descriptor. -/
inductive DirFd where
  | cwd : DirFd
  | fd (n : Nat) : DirFd
deriving Repr, DecidableEq

/-- Return value plus the `errno` the call leaves behind (`0` = untouched). -/
structure Ret where
  val : Int
  err : Nat
deriving Repr, DecidableEq

/-- The full environment: the working directory and the
    `/proc/self/fd/<n>` table used by `resolve_path`, the host oracle,
    injected local-filesystem faults, and the real (un-intercepted) libc
    entry points as oracles. -/
structure Env where
  cwd : Option String
  fdPath : Nat → Option String
  host : Host
  writeFails : Nat → Bool
  mkstempOk : Bool
  renameOk : Bool
  realOpenat : DirFd → Option String → Nat → Nat → Ret
  realFstatat : DirFd → Option String → Nat → Ret × Option StatResult
  realFaccessat : DirFd → Option String → Nat → Nat → Ret
  realFopen : Option String → String → Ret
  realFdopen : Int → String → Ret

/-- `resolve_path`: absolute paths pass through (if they fit in `PATH_MAX`);
    relative paths are joined to the resolved directory context; any
    resolution failure or overflow yields `none` (the C function's `-1`). -/
def resolve_path (env : Env) (dirfd : DirFd) (p : String) : Option String :=
  if p.take 1 = "/" then
    if PATH_MAX ≤ p.length then none else some p
  else
    match (match dirfd with | DirFd.cwd => env.cwd | DirFd.fd n => env.fdPath n) with
    | none => none
    | some dir =>
      let joined := dir ++ "/" ++ p
      if PATH_MAX ≤ joined.length then none else some joined

/-- `is_workspace_path`: `some rel` when the resolved path is in the
    namespace (`rel` is the root-stripped remainder, `""` for the root),
    `none` otherwise. -/
def ws_rel (resolved : String) : Option String :=
  if resolved.take WORKSPACE_PREFIX_LEN = WORKSPACE_PREFIX then
    some (resolved.drop WORKSPACE_PREFIX_LEN)
  else if resolved = WORKSPACE_DIR then some ""
  else none

/-- Resolution and classification of an entry point's path argument in one
    step: `none` means "null path, unresolvable, or outside the namespace",
    i.e. the call delegates to the real implementation unchanged. -/
def classify (env : Env) (dirfd : DirFd) (po : Option String) : Option String :=
  po.bind (fun p => (resolve_path env dirfd p).bind ws_rel)

/-- `cache_path_for`: `/tmp/.wscache/<relpath>`, `none` when it does not fit
    in `PATH_MAX`. -/
def cache_path_of (rel : String) : String := CACHE_DIR ++ rel

def cache_path_for (rel : String) : Option String :=
  if PATH_MAX ≤ (cache_path_of rel).length then none else some (cache_path_of rel)

/- ---- Cache management (libworkspace.c lines 404-526) ---- -/

/-- Process state threaded through the cache layer: protocol-client state,
    the local filesystem, and a counter of local chunk writes (indexing
    `Env.writeFails`). -/
structure St where
  net : Net
  fs : FS
  writes : Nat
deriving DecidableEq

/-- `mkdirs`: create the cache root, then every ancestor directory of
    `path`, by truncating at each `/` from offset `CACHE_DIR_LEN` on.
    Existing directories are not an error (idempotent). -/
def mkdirs (fs : FS) (path : String) : FS :=
  (List.range path.data.length).foldl
    (fun acc i =>
      if CACHE_DIR_LEN ≤ i ∧ path.data.getD i ' ' = '/' then
        fsMkdir acc (String.mk (path.data.take i))
      else acc)
    (fsMkdir fs "/tmp/.wscache")

/-- The unique name `mkstemp` turns the template `<cache_path>.XXXXXX`
    into.  The model keeps the template string as the fresh name; claims
    that need freshness assume the name is initially absent, which is what
    `mkstemp` guarantees. -/
def tmp_name (cp : String) : String := cp ++ ".XXXXXX"

/-- Rename the finished temporary file into place, or (on injected rename
    failure) unlink it and report failure — the tail of
    `ensure_cached_file`. -/
def dl_finish (env : Env) (cp tmp : String) (st : St) : Bool × St :=
  if env.renameOk then (true, { st with fs := fsRename st.fs tmp cp })
  else (false, { st with fs := fsRemove st.fs tmp })

/-- The download loop of `ensure_cached_file`: READ at increasing offsets in
    1 MiB chunks until `offset` reaches `size` or a read returns zero bytes;
    write each chunk to the temporary file; any failure unlinks the
    temporary file.  The C `while` loop is modelled with explicit fuel:
    every continuing iteration advances `offset` by at least one byte (a
    chunk is clamped to at most `size - offset` octets and the zero-byte
    case exits), so fuel `size` is never exhausted; the fuel-exhaustion
    branch mirrors the error-cleanup path and is unreachable in all flows
    ensured below. -/
def dl_loop (env : Env) (relB : List Nat) (cp tmp : String) (size : Nat)
    (fuel offset : Nat) (st : St) : Bool × St :=
  if offset < size then
    if fuel = 0 then (false, { st with fs := fsRemove st.fs tmp })
    else
      -- `want = CHUNK; if (file_size - offset < want) want = file_size - offset`
      match remote_read_chunk env.host relB offset
          (if size - offset < READ_CHUNK_SIZE then size - offset else READ_CHUNK_SIZE)
          st.net with
      | (none, net') => (false, { st with net := net', fs := fsRemove st.fs tmp })
      | (some data, net') =>
        if data.length = 0 then dl_finish env cp tmp { st with net := net' }
        else if env.writeFails st.writes then
          (false, { net := net', fs := fsRemove st.fs tmp, writes := st.writes + 1 })
        else
          dl_loop env relB cp tmp size (fuel - 1) (offset + data.length)
            { net := net', fs := fsAppend st.fs tmp data, writes := st.writes + 1 }
  else dl_finish env cp tmp st
termination_by fuel
decreasing_by omega

/-- `ensure_cached_file`: make the file or directory for `rel` exist in the
    cache.  `true` = the C function's `0`. -/
def ensure_cached_file (env : Env) (rel : String) (st : St) : Bool × St :=
  match cache_path_for rel with
  | none => (false, st)
  | some cp =>
    match fsLookup st.fs cp with
    | some _ => (true, st)
    | none =>
      match remote_stat env.host (strBytes rel) st.net with
      | (none, net') => (false, { st with net := net' })
      | (some rst, net') =>
        let st' : St := { st with net := net' }
        if S_ISDIR rst.mode then
          (true, { st' with fs := fsMkdir (mkdirs st'.fs cp) cp })
        else
          let fs1 := mkdirs st'.fs cp
          let tmp := tmp_name cp
          -- `snprintf` silently truncates an over-long template and
          -- `mkstemp` then fails (EINVAL); `Env.mkstempOk` injects the
          -- other `mkstemp` failures.
          if PATH_MAX ≤ tmp.length ∨ env.mkstempOk = false then
            (false, { st' with fs := fs1 })
          else
            dl_loop env (strBytes rel) cp tmp rst.size rst.size 0
              { st' with fs := fsInsert fs1 tmp (FSNode.file []) }

/-- `ensure_cached_stat`: stat the cache entry when present, otherwise one
    remote STAT (no caching, nothing created locally). -/
def ensure_cached_stat (h : Host) (rel : String) (st : St) : Option StatResult × St :=
  match cache_path_for rel with
  | none => (none, st)
  | some cp =>
    match fsLookup st.fs cp with
    | some node => (some (localStat node), st)
    | none =>
      match remote_stat h (strBytes rel) st.net with
      | (r, net') => (r, { st with net := net' })

/- ---- Intercepted entry points (libworkspace.c lines 528-770) ---- -/

/-- `flags & ~(O_CREAT | O_EXCL)` on a 32-bit `int`: the mask the delegated
    open of the cache file receives. -/
def strip_flags (f : Nat) : Nat :=
  Nat.land f (2 ^ 32 - 1 - Nat.lor O_CREAT O_EXCL)

/-- The variadic `mode` argument: read only when `flags` has `O_CREAT` or
    `__O_TMPFILE`, otherwise the C locals stay `0`. -/
def eff_mode (flags mode : Nat) : Nat :=
  if Nat.land flags (Nat.lor O_CREAT O_TMPFILE) ≠ 0 then mode else 0

/-- Intercepted `openat`.  `inHook` is this thread's re-entrancy guard on
    entry; the guard's set/clear pairs around internal operations are
    invisible here because the model's cache layer addresses the local
    filesystem directly (exactly what the guard accomplishes in C). -/
def openat (env : Env) (dirfd : DirFd) (po : Option String) (flags mode : Nat)
    (inHook : Bool) (st : St) : Ret × St :=
  let m := eff_mode flags mode
  match po with
  | none => (env.realOpenat dirfd none flags m, st)
  | some p =>
    if inHook then (env.realOpenat dirfd po flags m, st)
    else
      match resolve_path env dirfd p with
      | none => (env.realOpenat dirfd po flags m, st)
      | some resolved =>
        match ws_rel resolved with
        | none => (env.realOpenat dirfd po flags m, st)
        | some rel =>
          if Nat.land flags (Nat.lor O_WRONLY O_RDWR) ≠ 0 then
            ({ val := -1, err := EROFS }, st)
          else if rel = "" then
            -- /workspace itself: real open of the cache root directory
            -- (mkdir's trailing slash refers to the same directory).
            (env.realOpenat DirFd.cwd (some CACHE_DIR)
               (Nat.lor O_RDONLY O_DIRECTORY) 0,
             { st with fs := fsMkdir st.fs "/tmp/.wscache" })
          else
            match ensure_cached_file env rel st with
            | (false, st') => ({ val := -1, err := ENOENT }, st')
            | (true, st') =>
              match cache_path_for rel with
              | none => ({ val := -1, err := ENOENT }, st')
              | some cp =>
                (env.realOpenat DirFd.cwd (some cp) (strip_flags flags) 0, st')

/-- `open` forwards to `openat(AT_FDCWD, ...)` (the C wrapper re-extracts the
    variadic mode, which `eff_mode` makes idempotent). -/
def open' (env : Env) (po : Option String) (flags mode : Nat) (inHook : Bool)
    (st : St) : Ret × St :=
  openat env DirFd.cwd po flags mode inHook st

/-- `open64`, identical to `open`. -/
def open64 (env : Env) (po : Option String) (flags mode : Nat) (inHook : Bool)
    (st : St) : Ret × St :=
  openat env DirFd.cwd po flags mode inHook st

/-- `openat64`, identical to `openat`. -/
def openat64 (env : Env) (dirfd : DirFd) (po : Option String) (flags mode : Nat)
    (inHook : Bool) (st : St) : Ret × St :=
  openat env dirfd po flags mode inHook st

/-- The synthesized status of `/workspace` itself: `memset` to zero, then
    `st_mode = S_IFDIR | 0755`, `st_nlink = 2`. -/
def root_stat : StatResult :=
  { mode := Nat.lor S_IFDIR 493, size := 0, mtime := 0, nlink := 2,
    blksize := 0, blocks := 0 }

/-- Intercepted `fstatat`.  The second component of the result is the filled
    `statbuf` (when the call succeeds). -/
def fstatat (env : Env) (dirfd : DirFd) (po : Option String) (flags : Nat)
    (inHook : Bool) (st : St) : (Ret × Option StatResult) × St :=
  match po with
  | none => (env.realFstatat dirfd none flags, st)
  | some p =>
    if inHook then (env.realFstatat dirfd po flags, st)
    else
      match resolve_path env dirfd p with
      | none => (env.realFstatat dirfd po flags, st)
      | some resolved =>
        match ws_rel resolved with
        | none => (env.realFstatat dirfd po flags, st)
        | some rel =>
          if rel = "" then (({ val := 0, err := 0 }, some root_stat), st)
          else
            match ensure_cached_stat env.host rel st with
            | (none, st') => (({ val := -1, err := ENOENT }, none), st')
            | (some s, st') => (({ val := 0, err := 0 }, some s), st')

/-- `stat` / `__xstat` forward to `fstatat(AT_FDCWD, path, buf, 0)`. -/
def stat (env : Env) (po : Option String) (inHook : Bool) (st : St) :
    (Ret × Option StatResult) × St :=
  fstatat env DirFd.cwd po 0 inHook st

/-- `lstat` / `__lxstat` forward with `AT_SYMLINK_NOFOLLOW`. -/
def lstat (env : Env) (po : Option String) (inHook : Bool) (st : St) :
    (Ret × Option StatResult) × St :=
  fstatat env DirFd.cwd po AT_SYMLINK_NOFOLLOW inHook st

/-- Intercepted `faccessat`. -/
def faccessat (env : Env) (dirfd : DirFd) (po : Option String) (amode flags : Nat)
    (inHook : Bool) (st : St) : Ret × St :=
  match po with
  | none => (env.realFaccessat dirfd none amode flags, st)
  | some p =>
    if inHook then (env.realFaccessat dirfd po amode flags, st)
    else
      match resolve_path env dirfd p with
      | none => (env.realFaccessat dirfd po amode flags, st)
      | some resolved =>
        match ws_rel resolved with
        | none => (env.realFaccessat dirfd po amode flags, st)
        | some rel =>
          if Nat.land amode W_OK ≠ 0 then ({ val := -1, err := EROFS }, st)
          else if rel = "" then ({ val := 0, err := 0 }, st)
          else
            match ensure_cached_stat env.host rel st with
            | (none, st') => ({ val := -1, err := ENOENT }, st')
            | (some _, st') => ({ val := 0, err := 0 }, st')

/-- `access` forwards to `faccessat(AT_FDCWD, path, mode, 0)`. -/
def access (env : Env) (po : Option String) (amode : Nat) (inHook : Bool)
    (st : St) : Ret × St :=
  faccessat env DirFd.cwd po amode 0 inHook st

/-- Intercepted `fopen`.  `val = 0` models a NULL `FILE *`. -/
def fopen (env : Env) (po : Option String) (ms : String) (inHook : Bool)
    (st : St) : Ret × St :=
  match po with
  | none => (env.realFopen none ms, st)
  | some p =>
    if inHook then (env.realFopen po ms, st)
    else
      match resolve_path env DirFd.cwd p with
      | none => (env.realFopen po ms, st)
      | some resolved =>
        match ws_rel resolved with
        | none => (env.realFopen po ms, st)
        | some _rel =>
          if ms.data.contains 'w' || ms.data.contains 'a' || ms.data.contains '+' then
            ({ val := 0, err := EROFS }, st)
          else
            match openat env DirFd.cwd po O_RDONLY 0 inHook st with
            | (r, st') =>
              if r.val < 0 then ({ val := 0, err := r.err }, st')
              else (env.realFdopen r.val "r", st')

/-- `fopen64`, identical to `fopen`. -/
def fopen64 (env : Env) (po : Option String) (ms : String) (inHook : Bool)
    (st : St) : Ret × St :=
  fopen env po ms inHook st

/- ---- Concrete hosts, environments and states used in the theorems ---- -/

/-- Host-side framing of one response payload: 4-byte big-endian length,
    then the payload. -/
def frameOf (p : List Nat) : List Nat := be32 p.length ++ p

/-- Is this raw response stream one `send_request` rejects (send failure is
    handled separately): short header, declared length zero or above the
    16 MiB bound, or a stream that ends before the declared payload does? -/
def frame_malformed (s0 : List Nat) : Bool :=
  let s := s0.map (fun b => b % 256)
  decide (s.length < 4) || decide (rd32 s = 0) || decide (FRAME_MAX < rd32 s)
    || decide ((s.drop 4).length < rd32 s)

/-- A reply on which the in-flight exchange fails at the transport/framing
    level (the cases that make `send_request` return NULL). -/
def bad_reply : HostReply → Bool
  | HostReply.sendFail => true
  | HostReply.stream s => frame_malformed s

/-- The deterministic byte content served by the simulated host of the
    concrete download scenario: octet `content i % 256` at offset `i`. -/
def scChunk (content : Nat → Nat) (o w : Nat) : List Nat :=
  (List.range w).map (fun i => content (o + i) % 256)

/-- Relative-path bytes of the scenario file `foo.txt`. -/
def fooB : List Nat := strBytes "foo.txt"

/-- The simulated host of the concrete scenario: STAT of `foo.txt` reports
    mode 0644, size 3,000,000, mtime 1000, is_dir = 0; each READ is served
    in full with the deterministic content.  Any other request fails. -/
def scHost (content : Nat → Nat) : Host where
  connectOk := true
  reply := fun msg =>
    if msg = stat_msg fooB then
      HostReply.stream (frameOf ([STATUS_OK] ++ be32 420 ++ be64 3000000 ++ be64 1000 ++ [0]))
    else if msg = read_msg fooB 0 1048576 then
      HostReply.stream (frameOf ([STATUS_OK] ++ be32 1048576 ++ scChunk content 0 1048576))
    else if msg = read_msg fooB 1048576 1048576 then
      HostReply.stream (frameOf ([STATUS_OK] ++ be32 1048576 ++ scChunk content 1048576 1048576))
    else if msg = read_msg fooB 2097152 902848 then
      HostReply.stream (frameOf ([STATUS_OK] ++ be32 902848 ++ scChunk content 2097152 902848))
    else HostReply.sendFail

/-- A host whose every exchange fails at `send`. -/
def downHost : Host := { connectOk := true, reply := fun _ => HostReply.sendFail }

/-- A host that answers every request with a well-formed frame whose payload
    is the single octet `STATUS_OK` — shorter than both fixed response
    headers. -/
def shortPayloadHost : Host :=
  { connectOk := true, reply := fun _ => HostReply.stream (frameOf [STATUS_OK]) }

/-- A host that declares a frame length of zero. -/
def zeroLenHost : Host :=
  { connectOk := true, reply := fun _ => HostReply.stream [0, 0, 0, 0] }

/-- A fixed environment for the concrete witnesses: a resolvable working
    directory, one live directory descriptor, fault-free local filesystem
    operations, and real-libc oracles with recognizable outputs. -/
def testEnv : Env where
  cwd := some "/home/user"
  fdPath := fun n => if n = 3 then some "/srv" else none
  host := downHost
  writeFails := fun _ => false
  mkstempOk := true
  renameOk := true
  realOpenat := fun _ _ _ _ => { val := 17, err := 0 }
  realFstatat := fun _ _ _ => ({ val := 0, err := 0 }, some root_stat)
  realFaccessat := fun _ _ _ _ => { val := 0, err := 0 }
  realFopen := fun _ _ => { val := 23, err := 0 }
  realFdopen := fun _ _ => { val := 29, err := 0 }

/-- The initial process state: disconnected, nothing sent, empty cache. -/
def emptySt : St :=
  { net := { conn := { connected := false, connects := 0 }, reqs := [] },
    fs := [], writes := 0 }

/-- Concrete deterministic content for the download-scenario witness. -/
def scContent : Nat → Nat := fun i => i

/-- The download-scenario environment: the scenario host with identity
    content, no local faults. -/
def scEnv : Env := { testEnv with host := scHost scContent }

/-- A state in which `a.txt` is already cached (used by the cache-hit
    witnesses). -/
def cachedSt : St :=
  { net := { conn := { connected := false, connects := 0 }, reqs := [] },
    fs := [("/tmp/.wscache/a.txt", FSNode.file [1, 2, 3])], writes := 0 }

/- ---- Association-list filesystem lemmas ---- -/

theorem fsLookup_fsRemove (fs : FS) (p q : String) :
    fsLookup (fsRemove fs p) q = if q = p then none else fsLookup fs q := by
  induction fs with
  | nil => simp [fsRemove, fsLookup]
  | cons e rest ih =>
    obtain ⟨r, n⟩ := e
    simp only [fsRemove, fsLookup]
    by_cases hrp : r = p
    · rw [if_pos hrp, ih]
      by_cases hqp : q = p
      · simp [hqp]
      · have hrq : ¬ r = q := by rw [hrp]; exact fun h => hqp h.symm
        simp [hqp, hrq]
    · rw [if_neg hrp]
      simp only [fsLookup]
      by_cases hrq : r = q
      · have hqp : ¬ q = p := fun h => hrp (hrq.trans h)
        simp [hrq, hqp]
      · simp [hrq, ih]

theorem fsLookup_fsInsert (fs : FS) (p q : String) (n : FSNode) :
    fsLookup (fsInsert fs p n) q = if q = p then some n else fsLookup fs q := by
  by_cases h : q = p <;>
    simp [fsInsert, fsLookup, h, fsLookup_fsRemove, Ne.symm]

theorem fsLookup_fsInsert_self (fs : FS) (p : String) (n : FSNode) :
    fsLookup (fsInsert fs p n) p = some n := by
  simp [fsLookup_fsInsert]

theorem fsLookup_fsInsert_ne (fs : FS) (p q : String) (n : FSNode) (h : q ≠ p) :
    fsLookup (fsInsert fs p n) q = fsLookup fs q := by
  simp [fsLookup_fsInsert, h]

theorem fsLookup_fsMkdir_ne (fs : FS) (p q : String) (h : q ≠ p) :
    fsLookup (fsMkdir fs p) q = fsLookup fs q := by
  unfold fsMkdir
  cases fsLookup fs p <;> simp [fsLookup_fsInsert_ne, h]

theorem fsLookup_fsMkdir_self (fs : FS) (p : String) :
    (fsLookup (fsMkdir fs p) p).isSome := by
  unfold fsMkdir
  cases h : fsLookup fs p <;> simp [h, fsLookup_fsInsert_self]

theorem fsLookup_fsAppend_ne (fs : FS) (p q : String) (d : List Nat) (h : q ≠ p) :
    fsLookup (fsAppend fs p d) q = fsLookup fs q := by
  unfold fsAppend
  cases hp : fsLookup fs p with
  | none => simp [fsLookup_fsInsert_ne, h]
  | some n => cases n <;> simp [fsLookup_fsInsert_ne, h]

/-- `mkdirs path` only ever creates the cache root (13 characters) and
    proper prefixes of `path`: every name at least 14 characters long and at
    least as long as `path` is untouched. -/
theorem fsLookup_mkdirs (fs : FS) (path q : String) (h14 : 14 ≤ q.length)
    (hlen : path.length ≤ q.length) :
    fsLookup (mkdirs fs path) q = fsLookup fs q := by
  unfold mkdirs
  have base : fsLookup (fsMkdir fs "/tmp/.wscache") q = fsLookup fs q := by
    refine fsLookup_fsMkdir_ne _ _ _ (fun h => ?_)
    have : q.length = 13 := by rw [h]; rfl
    omega
  have main : ∀ (l : List Nat) (acc : FS), (∀ i ∈ l, i < path.data.length) →
      fsLookup acc q = fsLookup fs q →
      fsLookup (l.foldl (fun acc i =>
        if CACHE_DIR_LEN ≤ i ∧ path.data.getD i ' ' = '/' then
          fsMkdir acc (String.mk (path.data.take i))
        else acc) acc) q = fsLookup fs q := by
    intro l
    induction l with
    | nil => intro acc _ h; exact h
    | cons i rest ih =>
      intro acc hmem h
      have hi : i < path.data.length := hmem i (by simp)
      refine ih _ (fun j hj => hmem j (by simp [hj])) ?_
      beta_reduce
      by_cases hc : CACHE_DIR_LEN ≤ i ∧ path.data.getD i ' ' = '/'
      · rw [if_pos hc]
        have hne : q ≠ String.mk (path.data.take i) := by
          intro he
          have hlq : q.length = (path.data.take i).length := by rw [he]; rfl
          rw [List.length_take] at hlq
          have hpl : path.length = path.data.length := rfl
          omega
        rw [fsLookup_fsMkdir_ne _ _ _ hne, h]
      · rw [if_neg hc]; exact h
  exact main _ _ (fun i hi => List.mem_range.mp hi) base

/- ---- Byte-packing lemmas ---- -/

theorem be32_length (n : Nat) : (be32 n).length = 4 := rfl

theorem rd32_be32_append (n : Nat) (rest : List Nat) :
    rd32 (be32 n ++ rest) = n % 2 ^ 32 := by
  simp [be32, rd32]; omega

theorem rd32_be32 (n : Nat) : rd32 (be32 n) = n % 2 ^ 32 := by
  simpa using rd32_be32_append n []

theorem rd64_be64_append (n : Nat) (rest : List Nat) :
    rd64 (be64 n ++ rest) = n % 2 ^ 64 := by
  simp [be64, rd64]; omega

theorem map_mod_be16 (n : Nat) : (be16 n).map (fun b => b % 256) = be16 n := by
  simp [be16]

theorem map_mod_be32 (n : Nat) : (be32 n).map (fun b => b % 256) = be32 n := by
  simp [be32]

theorem map_mod_be64 (n : Nat) : (be64 n).map (fun b => b % 256) = be64 n := by
  simp [be64]

theorem map_mod_scChunk (c : Nat → Nat) (o w : Nat) :
    (scChunk c o w).map (fun b => b % 256) = scChunk c o w := by
  simp only [scChunk, List.map_map]
  refine List.map_congr_left (fun i _ => ?_)
  simp [Function.comp]

theorem scChunk_length (c : Nat → Nat) (o w : Nat) : (scChunk c o w).length = w := by
  simp [scChunk]

/- ---- Frame-layer lemmas ---- -/

/-- A well-formed frame around a payload of legal size is accepted whole, and
    the received payload is the sent one, octet-normalized. -/
theorem send_request_frameOf (p : List Nat) (h0 : 0 < p.length)
    (hmax : p.length ≤ FRAME_MAX) :
    send_request (HostReply.stream (frameOf p)) = some (p.map (fun b => b % 256)) := by
  unfold FRAME_MAX at hmax
  have hmap : (be32 p.length ++ p).map (fun b => b % 256)
      = be32 p.length ++ p.map (fun b => b % 256) := by
    rw [List.map_append, map_mod_be32]
  have hlen : (be32 p.length ++ p.map (fun b => b % 256)).length = 4 + p.length := by
    simp [be32_length]
  have hrd : rd32 (be32 p.length ++ p.map (fun b => b % 256)) = p.length := by
    rw [rd32_be32_append]
    exact Nat.mod_eq_of_lt (by omega)
  have hdrop : (be32 p.length ++ p.map (fun b => b % 256)).drop 4
      = p.map (fun b => b % 256) := by
    have h4 : (4 : Nat) = (be32 p.length).length := rfl
    rw [h4, List.drop_left]
  simp only [send_request, frameOf, hmap, hlen, hrd, hdrop]
  rw [if_neg (by omega), if_neg (by unfold FRAME_MAX; omega), if_neg (by simp)]
  congr 1
  have hml : (p.map (fun b => b % 256)).length = p.length := by simp
  rw [← hml, List.take_length]

/-- Every reply that `bad_reply` flags makes `send_request` fail. -/
theorem send_request_bad (r : HostReply) (h : bad_reply r = true) :
    send_request r = none := by
  cases r with
  | sendFail => rfl
  | stream s =>
    simp only [bad_reply, frame_malformed, Bool.or_eq_true, decide_eq_true_eq] at h
    simp only [send_request]
    by_cases h4 : (s.map (fun b => b % 256)).length < 4
    · rw [if_pos h4]
    · rw [if_neg h4]
      by_cases hz : rd32 (s.map (fun b => b % 256)) = 0 ∨
          FRAME_MAX < rd32 (s.map (fun b => b % 256))
      · rw [if_pos hz]
      · rw [if_neg hz]
        have hlt : (List.drop 4 (s.map (fun b => b % 256))).length
            < rd32 (s.map (fun b => b % 256)) := by
          rcases h with ((h | h) | h) | h
          · exact absurd h h4
          · exact absurd (Or.inl h) hz
          · exact absurd (Or.inr h) hz
          · exact h
        rw [if_pos hlt]

/- ---- Remote-operation lemmas ---- -/

/-- One STAT exchange sends at most the single STAT request (nothing when
    `connect` already fails) and never anything else. -/
theorem remote_stat_reqs (h : Host) (relB : List Nat) (net : Net) :
    (remote_stat h relB net).2.reqs = net.reqs ∨
    (remote_stat h relB net).2.reqs = net.reqs ++ [stat_msg relB] := by
  unfold remote_stat
  cases hvc : vsock_connect h net.conn with
  | none => left; simp
  | some c =>
    right
    cases hsr : send_request (h.reply (stat_msg relB)) with
    | none => simp [hsr]
    | some resp =>
      simp only [hsr]
      split
      · rfl
      · split <;> rfl

/-- A STAT exchange on an established connection whose reply fails at the
    transport/framing level: the call errors, the connection is torn down,
    and exactly the one request was attempted. -/
theorem remote_stat_bad (h : Host) (relB : List Nat) (net : Net)
    (hconn : net.conn.connected = true)
    (hbad : bad_reply (h.reply (stat_msg relB)) = true) :
    remote_stat h relB net =
      (none, { conn := { connected := false, connects := net.conn.connects },
               reqs := net.reqs ++ [stat_msg relB] }) := by
  unfold remote_stat
  have hvc : vsock_connect h net.conn = some net.conn := by
    unfold vsock_connect; rw [hconn]; simp
  simp only [hvc, send_request_bad _ hbad]

/-- A READ exchange on an established connection whose reply fails at the
    transport/framing level behaves the same way. -/
theorem remote_read_chunk_bad (h : Host) (relB : List Nat) (offset len : Nat)
    (net : Net) (hconn : net.conn.connected = true)
    (hbad : bad_reply (h.reply (read_msg relB offset len)) = true) :
    remote_read_chunk h relB offset len net =
      (none, { conn := { connected := false, connects := net.conn.connects },
               reqs := net.reqs ++ [read_msg relB offset len] }) := by
  unfold remote_read_chunk
  have hvc : vsock_connect h net.conn = some net.conn := by
    unfold vsock_connect; rw [hconn]; simp
  simp only [hvc, send_request_bad _ hbad]

/-- After a disconnect, the next STAT call (against a reachable host)
    starts by establishing a brand-new connection, whatever the host then
    answers. -/
theorem remote_stat_reconnects (h : Host) (relB : List Nat) (net : Net)
    (hdis : net.conn.connected = false) (hok : h.connectOk = true) :
    (remote_stat h relB net).2.conn.connects = net.conn.connects + 1 := by
  unfold remote_stat
  have hvc : vsock_connect h net.conn
      = some { connected := true, connects := net.conn.connects + 1 } := by
    unfold vsock_connect; rw [hdis, hok]; simp
  simp only [hvc]
  cases hsr : send_request (h.reply (stat_msg relB)) with
  | none => simp [hsr]
  | some resp =>
    simp only [hsr]
    split
    · rfl
    · split <;> rfl

/- ---- Download-loop step equations ---- -/

theorem dl_loop_exit {env : Env} {relB : List Nat} {cp tmp : String}
    {size fuel offset : Nat} {st : St} (hoff : ¬ offset < size) :
    dl_loop env relB cp tmp size fuel offset st = dl_finish env cp tmp st := by
  rw [dl_loop, if_neg hoff]

theorem dl_loop_fuel0 {env : Env} {relB : List Nat} {cp tmp : String}
    {size offset : Nat} {st : St} (hoff : offset < size) :
    dl_loop env relB cp tmp size 0 offset st
      = (false, { st with fs := fsRemove st.fs tmp }) := by
  rw [dl_loop, if_pos hoff, if_pos rfl]

theorem dl_loop_read_err {env : Env} {relB : List Nat} {cp tmp : String}
    {size fuel offset : Nat} {st : St} {net' : Net} (hoff : offset < size)
    (hfuel : fuel ≠ 0)
    (hrc : remote_read_chunk env.host relB offset
        (if size - offset < READ_CHUNK_SIZE then size - offset else READ_CHUNK_SIZE)
        st.net = (none, net')) :
    dl_loop env relB cp tmp size fuel offset st
      = (false, { st with net := net', fs := fsRemove st.fs tmp }) := by
  rw [dl_loop, if_pos hoff, if_neg hfuel, hrc]

theorem dl_loop_read_some {env : Env} {relB : List Nat} {cp tmp : String}
    {size fuel offset : Nat} {st : St} {data : List Nat} {net' : Net}
    (hoff : offset < size) (hfuel : fuel ≠ 0)
    (hrc : remote_read_chunk env.host relB offset
        (if size - offset < READ_CHUNK_SIZE then size - offset else READ_CHUNK_SIZE)
        st.net = (some data, net')) :
    dl_loop env relB cp tmp size fuel offset st
      = if data.length = 0 then dl_finish env cp tmp { st with net := net' }
        else if env.writeFails st.writes then
          (false, { net := net', fs := fsRemove st.fs tmp, writes := st.writes + 1 })
        else
          dl_loop env relB cp tmp size (fuel - 1) (offset + data.length)
            { net := net', fs := fsAppend st.fs tmp data, writes := st.writes + 1 } := by
  rw [dl_loop, if_pos hoff, if_neg hfuel, hrc]

/- ---- Download-loop invariants ---- -/

/-- A failing `dl_finish` (rename failure) removes the temporary file and
    leaves the final cache path alone. -/
theorem dl_finish_fail (env : Env) (cp tmp : String) (st : St) (hne : cp ≠ tmp)
    (hf : (dl_finish env cp tmp st).1 = false) :
    fsLookup (dl_finish env cp tmp st).2.fs tmp = none ∧
    fsLookup (dl_finish env cp tmp st).2.fs cp = fsLookup st.fs cp := by
  unfold dl_finish at hf ⊢
  by_cases hr : env.renameOk = true
  · rw [if_pos hr] at hf; exact absurd hf (by simp)
  · rw [if_neg hr] at hf ⊢
    constructor
    · simp [fsLookup_fsRemove]
    · simp [fsLookup_fsRemove, hne]

/-- A successful `dl_finish` moves the temporary file onto the final cache
    path, which therefore exists afterwards. -/
theorem dl_finish_ok (env : Env) (cp tmp : String) (st : St)
    (htmp : (fsLookup st.fs tmp).isSome)
    (hs : (dl_finish env cp tmp st).1 = true) :
    (fsLookup (dl_finish env cp tmp st).2.fs cp).isSome := by
  unfold dl_finish at hs ⊢
  by_cases hr : env.renameOk = true
  · rw [if_pos hr]
    obtain ⟨n, hn⟩ := Option.isSome_iff_exists.mp htmp
    simp only [fsRename, hn]
    simp [fsLookup_fsInsert_self]
  · rw [if_neg hr] at hs; exact absurd hs (by simp)

/-- If the download loop fails, the temporary file has been removed and the
    final cache path is exactly as it was when the loop started. -/
theorem dl_loop_fail (env : Env) (relB : List Nat) (cp tmp : String)
    (size : Nat) (hne : cp ≠ tmp) :
    ∀ (fuel offset : Nat) (st : St),
      (dl_loop env relB cp tmp size fuel offset st).1 = false →
      fsLookup (dl_loop env relB cp tmp size fuel offset st).2.fs tmp = none ∧
      fsLookup (dl_loop env relB cp tmp size fuel offset st).2.fs cp
        = fsLookup st.fs cp := by
  intro fuel
  induction fuel with
  | zero =>
    intro offset st hf
    by_cases hoff : offset < size
    · rw [dl_loop_fuel0 hoff] at hf ⊢
      exact ⟨by simp [fsLookup_fsRemove], by simp [fsLookup_fsRemove, hne]⟩
    · rw [dl_loop_exit hoff] at hf ⊢
      exact dl_finish_fail env cp tmp st hne hf
  | succ n ih =>
    intro offset st hf
    by_cases hoff : offset < size
    · rcases hrc : remote_read_chunk env.host relB offset
          (if size - offset < READ_CHUNK_SIZE then size - offset else READ_CHUNK_SIZE)
          st.net with ⟨r, net'⟩
      cases r with
      | none =>
        rw [dl_loop_read_err hoff (Nat.succ_ne_zero n) hrc] at hf ⊢
        exact ⟨by simp [fsLookup_fsRemove], by simp [fsLookup_fsRemove, hne]⟩
      | some data =>
        rw [dl_loop_read_some hoff (Nat.succ_ne_zero n) hrc] at hf ⊢
        by_cases hz : data.length = 0
        · rw [if_pos hz] at hf ⊢
          exact dl_finish_fail env cp tmp _ hne hf
        · rw [if_neg hz] at hf ⊢
          by_cases hw : env.writeFails st.writes = true
          · rw [if_pos hw] at hf ⊢
            exact ⟨by simp [fsLookup_fsRemove], by simp [fsLookup_fsRemove, hne]⟩
          · rw [if_neg hw] at hf ⊢
            try simp only [Nat.add_sub_cancel] at hf ⊢
            have hres := ih (offset + data.length)
              { net := net', fs := fsAppend st.fs tmp data, writes := st.writes + 1 } hf
            refine ⟨hres.1, hres.2.trans ?_⟩
            exact fsLookup_fsAppend_ne st.fs tmp cp data hne
    · rw [dl_loop_exit hoff] at hf ⊢
      exact dl_finish_fail env cp tmp st hne hf

/-- If the download loop succeeds (and the temporary file it works on
    exists), the final cache path exists afterwards. -/
theorem dl_loop_ok (env : Env) (relB : List Nat) (cp tmp : String)
    (size : Nat) :
    ∀ (fuel offset : Nat) (st : St), (fsLookup st.fs tmp).isSome →
      (dl_loop env relB cp tmp size fuel offset st).1 = true →
      (fsLookup (dl_loop env relB cp tmp size fuel offset st).2.fs cp).isSome := by
  intro fuel
  induction fuel with
  | zero =>
    intro offset st htmp hs
    by_cases hoff : offset < size
    · rw [dl_loop_fuel0 hoff] at hs; exact absurd hs (by simp)
    · rw [dl_loop_exit hoff] at hs ⊢
      exact dl_finish_ok env cp tmp st htmp hs
  | succ n ih =>
    intro offset st htmp hs
    by_cases hoff : offset < size
    · rcases hrc : remote_read_chunk env.host relB offset
          (if size - offset < READ_CHUNK_SIZE then size - offset else READ_CHUNK_SIZE)
          st.net with ⟨r, net'⟩
      cases r with
      | none =>
        rw [dl_loop_read_err hoff (Nat.succ_ne_zero n) hrc] at hs
        exact absurd hs (by simp)
      | some data =>
        rw [dl_loop_read_some hoff (Nat.succ_ne_zero n) hrc] at hs ⊢
        by_cases hz : data.length = 0
        · rw [if_pos hz] at hs ⊢
          exact dl_finish_ok env cp tmp _ htmp hs
        · rw [if_neg hz] at hs ⊢
          by_cases hw : env.writeFails st.writes = true
          · rw [if_pos hw] at hs; exact absurd hs (by simp)
          · rw [if_neg hw] at hs ⊢
            try simp only [Nat.add_sub_cancel] at hs ⊢
            refine ih (offset + data.length)
              { net := net', fs := fsAppend st.fs tmp data, writes := st.writes + 1 } ?_ hs
            unfold fsAppend
            cases hl : fsLookup st.fs tmp with
            | none => simp [fsLookup_fsInsert_self]
            | some nd => cases nd <;> simp [fsLookup_fsInsert_self]
    · rw [dl_loop_exit hoff] at hs ⊢
      exact dl_finish_ok env cp tmp st htmp hs

/- ---- ensure_cached_file / ensure_cached_stat step equations ---- -/

theorem ensure_file_nopath {env : Env} {rel : String} {st : St}
    (hcp : cache_path_for rel = none) :
    ensure_cached_file env rel st = (false, st) := by
  unfold ensure_cached_file
  simp only [hcp]

theorem ensure_file_hit {env : Env} {rel cp : String} {st : St} {node : FSNode}
    (hcp : cache_path_for rel = some cp) (hlk : fsLookup st.fs cp = some node) :
    ensure_cached_file env rel st = (true, st) := by
  unfold ensure_cached_file
  simp only [hcp, hlk]

theorem ensure_file_statfail {env : Env} {rel cp : String} {st : St} {net' : Net}
    (hcp : cache_path_for rel = some cp) (hlk : fsLookup st.fs cp = none)
    (hrs : remote_stat env.host (strBytes rel) st.net = (none, net')) :
    ensure_cached_file env rel st = (false, { st with net := net' }) := by
  unfold ensure_cached_file
  simp only [hcp, hlk, hrs]

theorem ensure_file_dir {env : Env} {rel cp : String} {st : St} {net' : Net}
    {rst : StatResult}
    (hcp : cache_path_for rel = some cp) (hlk : fsLookup st.fs cp = none)
    (hrs : remote_stat env.host (strBytes rel) st.net = (some rst, net'))
    (hdir : S_ISDIR rst.mode = true) :
    ensure_cached_file env rel st =
      (true, { st with net := net', fs := fsMkdir (mkdirs st.fs cp) cp }) := by
  unfold ensure_cached_file
  simp only [hcp, hlk, hrs, hdir]
  simp

theorem ensure_file_reg {env : Env} {rel cp : String} {st : St} {net' : Net}
    {rst : StatResult}
    (hcp : cache_path_for rel = some cp) (hlk : fsLookup st.fs cp = none)
    (hrs : remote_stat env.host (strBytes rel) st.net = (some rst, net'))
    (hdir : S_ISDIR rst.mode = false) :
    ensure_cached_file env rel st =
      if PATH_MAX ≤ (tmp_name cp).length ∨ env.mkstempOk = false then
        (false, { st with net := net', fs := mkdirs st.fs cp })
      else
        dl_loop env (strBytes rel) cp (tmp_name cp) rst.size rst.size 0
          { net := net', fs := fsInsert (mkdirs st.fs cp) (tmp_name cp) (FSNode.file []),
            writes := st.writes } := by
  unfold ensure_cached_file
  simp only [hcp, hlk, hrs, hdir]
  simp

theorem ensure_stat_nopath {h : Host} {rel : String} {st : St}
    (hcp : cache_path_for rel = none) :
    ensure_cached_stat h rel st = (none, st) := by
  unfold ensure_cached_stat
  simp only [hcp]

theorem ensure_stat_hit {h : Host} {rel cp : String} {st : St} {node : FSNode}
    (hcp : cache_path_for rel = some cp) (hlk : fsLookup st.fs cp = some node) :
    ensure_cached_stat h rel st = (some (localStat node), st) := by
  unfold ensure_cached_stat
  simp only [hcp, hlk]

theorem ensure_stat_miss {h : Host} {rel cp : String} {st : St}
    (hcp : cache_path_for rel = some cp) (hlk : fsLookup st.fs cp = none) :
    ensure_cached_stat h rel st =
      ((remote_stat h (strBytes rel) st.net).1,
       { st with net := (remote_stat h (strBytes rel) st.net).2 }) := by
  unfold ensure_cached_stat
  simp only [hcp, hlk]

/- ---- Dispatch step equations ---- -/

theorem openat_delegates {env : Env} {dirfd : DirFd} {po : Option String}
    {flags mode : Nat} {st : St} (hcls : classify env dirfd po = none) :
    openat env dirfd po flags mode false st
      = (env.realOpenat dirfd po flags (eff_mode flags mode), st) := by
  cases po with
  | none => simp [openat, eff_mode]
  | some p =>
    cases hres : resolve_path env dirfd p with
    | none => simp [openat, hres, eff_mode]
    | some r =>
      have hws : ws_rel r = none := by simpa [classify, hres] using hcls
      simp [openat, hres, hws, eff_mode]

theorem openat_ns {env : Env} {dirfd : DirFd} {p resolved rel : String}
    {flags mode : Nat} {st : St}
    (hres : resolve_path env dirfd p = some resolved)
    (hws : ws_rel resolved = some rel) :
    openat env dirfd (some p) flags mode false st =
      if Nat.land flags (Nat.lor O_WRONLY O_RDWR) ≠ 0 then
        ({ val := -1, err := EROFS }, st)
      else if rel = "" then
        (env.realOpenat DirFd.cwd (some CACHE_DIR) (Nat.lor O_RDONLY O_DIRECTORY) 0,
         { st with fs := fsMkdir st.fs "/tmp/.wscache" })
      else
        match ensure_cached_file env rel st with
        | (false, st') => ({ val := -1, err := ENOENT }, st')
        | (true, st') =>
          match cache_path_for rel with
          | none => ({ val := -1, err := ENOENT }, st')
          | some cp => (env.realOpenat DirFd.cwd (some cp) (strip_flags flags) 0, st') := by
  unfold openat
  simp only [hres, hws, Bool.false_eq_true, if_false]

theorem fstatat_delegates {env : Env} {dirfd : DirFd} {po : Option String}
    {flags : Nat} {st : St} (hcls : classify env dirfd po = none) :
    fstatat env dirfd po flags false st = (env.realFstatat dirfd po flags, st) := by
  cases po with
  | none => simp [fstatat]
  | some p =>
    cases hres : resolve_path env dirfd p with
    | none => simp [fstatat, hres]
    | some r =>
      have hws : ws_rel r = none := by simpa [classify, hres] using hcls
      simp [fstatat, hres, hws]

theorem fstatat_ns {env : Env} {dirfd : DirFd} {p resolved rel : String}
    {flags : Nat} {st : St}
    (hres : resolve_path env dirfd p = some resolved)
    (hws : ws_rel resolved = some rel) :
    fstatat env dirfd (some p) flags false st =
      if rel = "" then (({ val := 0, err := 0 }, some root_stat), st)
      else
        match ensure_cached_stat env.host rel st with
        | (none, st') => (({ val := -1, err := ENOENT }, none), st')
        | (some s, st') => (({ val := 0, err := 0 }, some s), st') := by
  unfold fstatat
  simp only [hres, hws, Bool.false_eq_true, if_false]

theorem faccessat_delegates {env : Env} {dirfd : DirFd} {po : Option String}
    {amode flags : Nat} {st : St} (hcls : classify env dirfd po = none) :
    faccessat env dirfd po amode flags false st
      = (env.realFaccessat dirfd po amode flags, st) := by
  cases po with
  | none => simp [faccessat]
  | some p =>
    cases hres : resolve_path env dirfd p with
    | none => simp [faccessat, hres]
    | some r =>
      have hws : ws_rel r = none := by simpa [classify, hres] using hcls
      simp [faccessat, hres, hws]

theorem faccessat_ns {env : Env} {dirfd : DirFd} {p resolved rel : String}
    {amode flags : Nat} {st : St}
    (hres : resolve_path env dirfd p = some resolved)
    (hws : ws_rel resolved = some rel) :
    faccessat env dirfd (some p) amode flags false st =
      if Nat.land amode W_OK ≠ 0 then ({ val := -1, err := EROFS }, st)
      else if rel = "" then ({ val := 0, err := 0 }, st)
      else
        match ensure_cached_stat env.host rel st with
        | (none, st') => ({ val := -1, err := ENOENT }, st')
        | (some _, st') => ({ val := 0, err := 0 }, st') := by
  unfold faccessat
  simp only [hres, hws, Bool.false_eq_true, if_false]

theorem fopen_delegates {env : Env} {po : Option String} {ms : String}
    {st : St} (hcls : classify env DirFd.cwd po = none) :
    fopen env po ms false st = (env.realFopen po ms, st) := by
  cases po with
  | none => simp [fopen]
  | some p =>
    cases hres : resolve_path env DirFd.cwd p with
    | none => simp [fopen, hres]
    | some r =>
      have hws : ws_rel r = none := by simpa [classify, hres] using hcls
      simp [fopen, hres, hws]

theorem fopen_ns {env : Env} {p resolved rel : String} {ms : String} {st : St}
    (hres : resolve_path env DirFd.cwd p = some resolved)
    (hws : ws_rel resolved = some rel) :
    fopen env (some p) ms false st =
      if (ms.data.contains 'w' || ms.data.contains 'a' || ms.data.contains '+') = true then
        ({ val := 0, err := EROFS }, st)
      else
        match openat env DirFd.cwd (some p) O_RDONLY 0 false st with
        | (r, st') =>
          if r.val < 0 then ({ val := 0, err := r.err }, st')
          else (env.realFdopen r.val "r", st') := by
  unfold fopen
  simp only [hres, hws, Bool.false_eq_true, if_false]

/- ---- Auxiliary facts about classification ---- -/

/-- Split a successful classification into its components. -/
theorem classify_some {env : Env} {dirfd : DirFd} {po : Option String}
    {rel : String} (hcls : classify env dirfd po = some rel) :
    ∃ p resolved, po = some p ∧ resolve_path env dirfd p = some resolved ∧
      ws_rel resolved = some rel := by
  cases po with
  | none => simp [classify] at hcls
  | some p =>
    cases hres : resolve_path env dirfd p with
    | none => simp [classify, hres] at hcls
    | some r =>
      exact ⟨p, r, rfl, hres, by simpa [classify, hres] using hcls⟩

theorem cache_path_for_some {rel cp : String}
    (hcp : cache_path_for rel = some cp) : cp = cache_path_of rel := by
  unfold cache_path_for at hcp
  by_cases hle : PATH_MAX ≤ (cache_path_of rel).length
  · rw [if_pos hle] at hcp; cases hcp
  · rw [if_neg hle] at hcp; exact (Option.some.injEq _ _ ▸ hcp).symm

/- ---- C2 ---- -/

/-- C2: for every path classified inside the namespace, a write-intent
    request — an `openat` with a write or read-write access-mode flag, a
    `faccessat` asking for `W_OK`, or an `fopen` whose mode string contains
    `w`, `a` or `+` — fails with `EROFS`, and the process state (local
    filesystem, connection, and the trace of remote requests) is returned
    unchanged: zero remote calls are performed. -/
theorem c2_write_intent_rejected (env : Env) (dirfd : DirFd) (po : Option String)
    (rel : String) (flags mode amode aflags : Nat) (ms : String) (st : St)
    (hcls : classify env dirfd po = some rel) :
    (Nat.land flags (Nat.lor O_WRONLY O_RDWR) ≠ 0 →
      openat env dirfd po flags mode false st = ({ val := -1, err := EROFS }, st)) ∧
    (Nat.land amode W_OK ≠ 0 →
      faccessat env dirfd po amode aflags false st
        = ({ val := -1, err := EROFS }, st)) ∧
    (∀ rel2, classify env DirFd.cwd po = some rel2 →
      (ms.data.contains 'w' || ms.data.contains 'a' || ms.data.contains '+') = true →
      fopen env po ms false st = ({ val := 0, err := EROFS }, st)) := by
  obtain ⟨p, r, hp, hres, hws⟩ := classify_some hcls
  subst hp
  refine ⟨fun hw => ?_, fun hw => ?_, fun rel2 hcls2 hm => ?_⟩
  · rw [openat_ns hres hws, if_pos hw]
  · rw [faccessat_ns hres hws, if_pos hw]
  · obtain ⟨p2, r2, hp2, hres2, hws2⟩ := classify_some hcls2
    cases hp2
    rw [fopen_ns hres2 hws2, if_pos hm]

/-- C2 witness: concrete write-intent requests against `/workspace/a.txt`. -/
theorem c2_write_intent_rejected_witness :
    openat testEnv DirFd.cwd (some "/workspace/a.txt") 1 0 false emptySt
      = ({ val := -1, err := EROFS }, emptySt) ∧
    faccessat testEnv DirFd.cwd (some "/workspace/a.txt") 2 0 false emptySt
      = ({ val := -1, err := EROFS }, emptySt) ∧
    fopen testEnv (some "/workspace/a.txt") "w" false emptySt
      = ({ val := 0, err := EROFS }, emptySt) := by
  have h := c2_write_intent_rejected testEnv DirFd.cwd (some "/workspace/a.txt")
    "a.txt" 1 0 2 0 "w" emptySt (by decide)
  exact ⟨h.1 (by decide), h.2.1 (by decide), h.2.2 "a.txt" (by decide) (by decide)⟩

/- ---- C3 ---- -/

/-- C3: for every path outside the namespace, and for every path whose
    resolution fails (null path, unresolvable directory descriptor, or
    over-long path), each intercepted entry point delegates to the real
    implementation with all original arguments and returns its result and
    error state unchanged.  `classify = none` is exactly "null path,
    unresolvable, or outside the namespace". -/
theorem c3_outside_delegates (env : Env) (dirfd : DirFd) (po : Option String)
    (flags mode sflags amode aflags : Nat) (ms : String) (st : St)
    (h1 : classify env dirfd po = none) (h2 : classify env DirFd.cwd po = none) :
    openat env dirfd po flags mode false st
      = (env.realOpenat dirfd po flags (eff_mode flags mode), st) ∧
    openat64 env dirfd po flags mode false st
      = (env.realOpenat dirfd po flags (eff_mode flags mode), st) ∧
    open' env po flags mode false st
      = (env.realOpenat DirFd.cwd po flags (eff_mode flags mode), st) ∧
    open64 env po flags mode false st
      = (env.realOpenat DirFd.cwd po flags (eff_mode flags mode), st) ∧
    fstatat env dirfd po sflags false st = (env.realFstatat dirfd po sflags, st) ∧
    stat env po false st = (env.realFstatat DirFd.cwd po 0, st) ∧
    lstat env po false st = (env.realFstatat DirFd.cwd po AT_SYMLINK_NOFOLLOW, st) ∧
    faccessat env dirfd po amode aflags false st
      = (env.realFaccessat dirfd po amode aflags, st) ∧
    access env po amode false st = (env.realFaccessat DirFd.cwd po amode 0, st) ∧
    fopen env po ms false st = (env.realFopen po ms, st) ∧
    fopen64 env po ms false st = (env.realFopen po ms, st) :=
  ⟨openat_delegates h1, openat_delegates h1, openat_delegates h2,
   openat_delegates h2, fstatat_delegates h1, fstatat_delegates h2,
   fstatat_delegates h2, faccessat_delegates h1, faccessat_delegates h2,
   fopen_delegates h2, fopen_delegates h2⟩

/-- C3 witness: `/etc/passwd` (outside the namespace) and the concrete
    delegated results. -/
theorem c3_outside_delegates_witness :
    openat testEnv (DirFd.fd 3) (some "/etc/passwd") 66 438 false emptySt
      = (testEnv.realOpenat (DirFd.fd 3) (some "/etc/passwd") 66 438, emptySt) ∧
    fstatat testEnv (DirFd.fd 3) (some "/etc/passwd") 0 false emptySt
      = (testEnv.realFstatat (DirFd.fd 3) (some "/etc/passwd") 0, emptySt) ∧
    faccessat testEnv (DirFd.fd 3) (some "/etc/passwd") 4 0 false emptySt
      = (testEnv.realFaccessat (DirFd.fd 3) (some "/etc/passwd") 4 0, emptySt) ∧
    fopen testEnv (some "/etc/passwd") "r" false emptySt
      = (testEnv.realFopen (some "/etc/passwd") "r", emptySt) := by
  have h := c3_outside_delegates testEnv (DirFd.fd 3) (some "/etc/passwd")
    66 438 0 4 0 "r" emptySt (by decide) (by decide)
  have hm : eff_mode 66 438 = 438 := by decide
  exact ⟨by rw [← hm]; exact h.1, h.2.2.2.2.1, h.2.2.2.2.2.2.2.1, h.2.2.2.2.2.2.2.2.2.1⟩

/- ---- C9 ---- -/

/-- C9: for the namespace root (empty relative path) no entry point contacts
    the host: a status query synthesizes a directory status (directory bit
    set, mode 0755, link count 2) with the state unchanged; an access check
    without `W_OK` succeeds with the state unchanged; an open (without write
    flags) delegates to the real open of the cache root directory in
    directory-read mode, touching only the local cache-root directory and
    leaving the protocol-client state (hence the remote-call trace)
    unchanged. -/
theorem c9_root_never_contacts_host (env : Env) (dirfd : DirFd)
    (po : Option String) (flags mode amode aflags sflags : Nat) (st : St)
    (hcls : classify env dirfd po = some "") :
    (fstatat env dirfd po sflags false st
        = (({ val := 0, err := 0 }, some root_stat), st) ∧
      S_ISDIR root_stat.mode = true ∧ Nat.land root_stat.mode 511 = 493 ∧
      root_stat.nlink = 2) ∧
    (Nat.land amode W_OK = 0 →
      faccessat env dirfd po amode aflags false st = ({ val := 0, err := 0 }, st)) ∧
    (Nat.land flags (Nat.lor O_WRONLY O_RDWR) = 0 →
      openat env dirfd po flags mode false st
        = (env.realOpenat DirFd.cwd (some CACHE_DIR) (Nat.lor O_RDONLY O_DIRECTORY) 0,
           { st with fs := fsMkdir st.fs "/tmp/.wscache" }) ∧
      ({ st with fs := fsMkdir st.fs "/tmp/.wscache" } : St).net = st.net) := by
  obtain ⟨p, r, hp, hres, hws⟩ := classify_some hcls
  subst hp
  refine ⟨⟨?_, by decide, by decide, by decide⟩, fun hw => ?_, fun hw => ?_⟩
  · rw [fstatat_ns hres hws, if_pos rfl]
  · rw [faccessat_ns hres hws, if_neg (by simp [hw]), if_pos rfl]
  · exact ⟨by rw [openat_ns hres hws, if_neg (by simp [hw]), if_pos rfl], rfl⟩

/-- C9 witness: the three root calls on `/workspace` itself. -/
theorem c9_root_never_contacts_host_witness :
    fstatat testEnv DirFd.cwd (some "/workspace") 0 false emptySt
      = (({ val := 0, err := 0 }, some root_stat), emptySt) ∧
    faccessat testEnv DirFd.cwd (some "/workspace") 4 0 false emptySt
      = ({ val := 0, err := 0 }, emptySt) ∧
    openat testEnv DirFd.cwd (some "/workspace") 0 0 false emptySt
      = (testEnv.realOpenat DirFd.cwd (some CACHE_DIR)
           (Nat.lor O_RDONLY O_DIRECTORY) 0,
         { emptySt with fs := fsMkdir emptySt.fs "/tmp/.wscache" }) := by
  have h := c9_root_never_contacts_host testEnv DirFd.cwd (some "/workspace")
    0 0 4 0 0 emptySt (by decide)
  exact ⟨h.1.1, h.2.1 (by decide), (h.2.2 (by decide)).1⟩

/- ---- More transport lemmas ---- -/

theorem map_mod_of_lt (l : List Nat) (h : ∀ x ∈ l, x < 256) :
    l.map (fun b => b % 256) = l := by
  induction l with
  | nil => rfl
  | cons a t ih => simp_all [Nat.mod_eq_of_lt]

theorem remote_read_chunk_reconnects (h : Host) (relB : List Nat)
    (offset len : Nat) (net : Net) (hdis : net.conn.connected = false)
    (hok : h.connectOk = true) :
    (remote_read_chunk h relB offset len net).2.conn.connects
      = net.conn.connects + 1 := by
  unfold remote_read_chunk
  have hvc : vsock_connect h net.conn
      = some { connected := true, connects := net.conn.connects + 1 } := by
    unfold vsock_connect; rw [hdis, hok]; simp
  simp only [hvc]
  cases hsr : send_request (h.reply (read_msg relB offset len)) with
  | none => simp [hsr]
  | some resp =>
    simp only [hsr]
    split
    · rfl
    · split <;> rfl

/- ---- C10 ---- -/

/-- C10: a status query or a read/execute access check on an uncached,
    non-root workspace path leaves the local cache completely unchanged
    (nothing is created under the cache root) and sends at most one STAT
    request — in particular zero READ requests: only open-style calls
    populate the cache. -/
theorem c10_stat_access_no_cache_effect (env : Env) (dirfd : DirFd)
    (po : Option String) (rel : String) (amode aflags sflags : Nat) (st : St)
    (hcls : classify env dirfd po = some rel) (hrel : rel ≠ "")
    (hmiss : fsLookup st.fs (cache_path_of rel) = none) :
    ((fstatat env dirfd po sflags false st).2.fs = st.fs ∧
      ((fstatat env dirfd po sflags false st).2.net.reqs = st.net.reqs ∨
       (fstatat env dirfd po sflags false st).2.net.reqs
         = st.net.reqs ++ [stat_msg (strBytes rel)])) ∧
    (Nat.land amode W_OK = 0 →
      (faccessat env dirfd po amode aflags false st).2.fs = st.fs ∧
      ((faccessat env dirfd po amode aflags false st).2.net.reqs = st.net.reqs ∨
       (faccessat env dirfd po amode aflags false st).2.net.reqs
         = st.net.reqs ++ [stat_msg (strBytes rel)])) := by
  obtain ⟨p, r, hp, hres, hws⟩ := classify_some hcls
  subst hp
  have key : (ensure_cached_stat env.host rel st).2.fs = st.fs ∧
      ((ensure_cached_stat env.host rel st).2.net.reqs = st.net.reqs ∨
       (ensure_cached_stat env.host rel st).2.net.reqs
         = st.net.reqs ++ [stat_msg (strBytes rel)]) := by
    cases hcp : cache_path_for rel with
    | none => rw [ensure_stat_nopath hcp]; exact ⟨rfl, Or.inl rfl⟩
    | some cp =>
      have hcpe := cache_path_for_some hcp
      subst hcpe
      rw [ensure_stat_miss hcp hmiss]
      exact ⟨rfl, remote_stat_reqs env.host (strBytes rel) st.net⟩
  constructor
  · rw [fstatat_ns hres hws, if_neg hrel]
    rcases hes : ensure_cached_stat env.host rel st with ⟨ors, st'⟩
    rw [hes] at key
    cases ors <;> exact key
  · intro hw
    rw [faccessat_ns hres hws, if_neg (by simp [hw]), if_neg hrel]
    rcases hes : ensure_cached_stat env.host rel st with ⟨ors, st'⟩
    rw [hes] at key
    cases ors <;> exact key

/-- C10 witness: stat and access of uncached `/workspace/x` against a host
    whose send fails — the cache stays empty and at most one STAT request
    was attempted. -/
theorem c10_stat_access_no_cache_effect_witness :
    ((fstatat testEnv DirFd.cwd (some "/workspace/x") 0 false emptySt).2.fs
        = emptySt.fs ∧
      ((fstatat testEnv DirFd.cwd (some "/workspace/x") 0 false emptySt).2.net.reqs
          = emptySt.net.reqs ∨
       (fstatat testEnv DirFd.cwd (some "/workspace/x") 0 false emptySt).2.net.reqs
          = emptySt.net.reqs ++ [stat_msg (strBytes "x")])) ∧
    ((faccessat testEnv DirFd.cwd (some "/workspace/x") 4 0 false emptySt).2.fs
        = emptySt.fs ∧
      ((faccessat testEnv DirFd.cwd (some "/workspace/x") 4 0 false emptySt).2.net.reqs
          = emptySt.net.reqs ∨
       (faccessat testEnv DirFd.cwd (some "/workspace/x") 4 0 false emptySt).2.net.reqs
          = emptySt.net.reqs ++ [stat_msg (strBytes "x")])) := by
  have h := c10_stat_access_no_cache_effect testEnv DirFd.cwd (some "/workspace/x")
    "x" 4 0 0 emptySt (by decide) (by decide) (by decide)
  exact ⟨h.1, h.2 (by decide)⟩

/- ---- C6 (corrected) ---- -/

/-- C6 counterexample: the claim asserts that a response payload shorter
    than its fixed header makes the in-flight call return an error and the
    connection be discarded.  Concretely, a READ answered by the well-formed
    frame `[0,0,0,1, 0]` (declared length 1, payload = the single `STATUS_OK`
    octet, shorter than the 5-byte read header) makes `remote_read_chunk`
    return success with zero bytes — not an error — and the connection is
    retained, not discarded. -/
theorem c6_counterexample :
    (remote_read_chunk shortPayloadHost fooB 0 1048576
        { conn := { connected := true, connects := 1 }, reqs := [] }).1
      = some [] ∧
    (remote_read_chunk shortPayloadHost fooB 0 1048576
        { conn := { connected := true, connects := 1 }, reqs := [] }).2.conn.connected
      = true := by
  constructor <;> decide

/-- C6 amended: a well-framed `STATUS_OK` STAT response shorter than the
    22-byte stat layout makes the in-flight call return an error (which the
    callers downgrade to NotFound) but the Connection is retained, not
    discarded; a well-framed `STATUS_OK` READ response shorter than the
    5-byte read header is treated as end-of-stream (zero bytes, success),
    not as an error; in both cases exactly one request was sent and the
    connection state is unchanged.  (Only framing-level violations — send
    failure, short header, zero or oversized declared length, short payload
    receive — discard the Connection; see C7.) -/
theorem c6_short_payload_amended (h : Host) (relB : List Nat) (net : Net)
    (offset len : Nat) (p q : List Nat) (hconn : net.conn.connected = true) :
    (h.reply (stat_msg relB) = HostReply.stream (frameOf p) →
      p.headD 1 = STATUS_OK → 0 < p.length → p.length < 22 → (∀ x ∈ p, x < 256) →
      remote_stat h relB net
        = (none, { conn := net.conn, reqs := net.reqs ++ [stat_msg relB] })) ∧
    (h.reply (read_msg relB offset len) = HostReply.stream (frameOf q) →
      q.headD 1 = STATUS_OK → 0 < q.length → q.length < 5 → (∀ x ∈ q, x < 256) →
      remote_read_chunk h relB offset len net
        = (some [], { conn := net.conn,
                      reqs := net.reqs ++ [read_msg relB offset len] })) := by
  have hvc : vsock_connect h net.conn = some net.conn := by
    unfold vsock_connect; rw [hconn]; simp
  constructor
  · intro hr hok hpos hlt hbytes
    have hsr : send_request (h.reply (stat_msg relB)) = some p := by
      rw [hr, send_request_frameOf p hpos (by unfold FRAME_MAX; omega),
        map_mod_of_lt p hbytes]
    unfold remote_stat
    simp only [hvc, hsr]
    rw [if_neg (by simp only [ne_eq, Decidable.not_not]; exact hok), if_pos hlt]
  · intro hr hok hpos hlt hbytes
    have hsr : send_request (h.reply (read_msg relB offset len)) = some q := by
      rw [hr, send_request_frameOf q hpos (by unfold FRAME_MAX; omega),
        map_mod_of_lt q hbytes]
    unfold remote_read_chunk
    simp only [hvc, hsr]
    rw [if_neg (by simp only [ne_eq, Decidable.not_not]; exact hok), if_pos hlt]

/-- C6 amended witness: the short-payload host instantiates both halves. -/
theorem c6_short_payload_amended_witness :
    remote_stat shortPayloadHost fooB
        { conn := { connected := true, connects := 1 }, reqs := [] }
      = (none, { conn := { connected := true, connects := 1 },
                 reqs := [stat_msg fooB] }) ∧
    remote_read_chunk shortPayloadHost fooB 0 5
        { conn := { connected := true, connects := 1 }, reqs := [] }
      = (some [], { conn := { connected := true, connects := 1 },
                    reqs := [read_msg fooB 0 5] }) := by
  have h := c6_short_payload_amended shortPayloadHost fooB
    { conn := { connected := true, connects := 1 }, reqs := [] } 0 5
    [STATUS_OK] [STATUS_OK] (by decide)
  exact ⟨h.1 rfl (by decide) (by decide) (by decide) (by decide),
         h.2 rfl (by decide) (by decide) (by decide) (by decide)⟩

/- ---- C7 ---- -/

/-- C7: a frame whose declared length is zero or exceeds 16 MiB, a short or
    failed receive, or a send failure makes the in-flight remote call fail,
    forces the Connection from Connected to Disconnected before the error
    is returned (with exactly one request attempted — no retry within the
    call), and the next remote call against a reachable host establishes a
    brand-new connection (the successful-connect count increases). -/
theorem c7_malformed_frame_forces_reconnect (h h2 : Host) (relB relB2 : List Nat)
    (offset len : Nat) (net : Net) (hconn : net.conn.connected = true)
    (hok2 : h2.connectOk = true) :
    (bad_reply (h.reply (stat_msg relB)) = true →
      remote_stat h relB net
        = (none, { conn := { connected := false, connects := net.conn.connects },
                   reqs := net.reqs ++ [stat_msg relB] }) ∧
      (remote_stat h2 relB2 (remote_stat h relB net).2).2.conn.connects
        = net.conn.connects + 1 ∧
      (remote_read_chunk h2 relB2 offset len (remote_stat h relB net).2).2.conn.connects
        = net.conn.connects + 1) ∧
    (bad_reply (h.reply (read_msg relB offset len)) = true →
      remote_read_chunk h relB offset len net
        = (none, { conn := { connected := false, connects := net.conn.connects },
                   reqs := net.reqs ++ [read_msg relB offset len] }) ∧
      (remote_stat h2 relB2 (remote_read_chunk h relB offset len net).2).2.conn.connects
        = net.conn.connects + 1) := by
  constructor
  · intro hbad
    have he := remote_stat_bad h relB net hconn hbad
    refine ⟨he, ?_, ?_⟩
    · rw [he]; exact remote_stat_reconnects h2 relB2 _ rfl hok2
    · rw [he]; exact remote_read_chunk_reconnects h2 relB2 offset len _ rfl hok2
  · intro hbad
    have he := remote_read_chunk_bad h relB offset len net hconn hbad
    refine ⟨he, ?_⟩
    rw [he]; exact remote_stat_reconnects h2 relB2 _ rfl hok2

/-- C7 witness: a host that declares frame length zero, followed by a host
    whose next exchange connects afresh. -/
theorem c7_malformed_frame_forces_reconnect_witness :
    remote_stat zeroLenHost fooB
        { conn := { connected := true, connects := 1 }, reqs := [] }
      = (none, { conn := { connected := false, connects := 1 },
                 reqs := [stat_msg fooB] }) ∧
    (remote_stat downHost fooB
        (remote_stat zeroLenHost fooB
          { conn := { connected := true, connects := 1 }, reqs := [] }).2).2.conn.connects
      = 2 := by
  have h := c7_malformed_frame_forces_reconnect zeroLenHost downHost fooB fooB
    0 5 { conn := { connected := true, connects := 1 }, reqs := [] }
    (by decide) (by decide)
  have h1 := h.1 (by decide)
  exact ⟨h1.1, h1.2.1⟩

/- ---- Helper facts for the cache-layer claims ---- -/

theorem tmp_name_length (cp : String) : (tmp_name cp).length = cp.length + 7 := by
  have h7 : (".XXXXXX" : String).length = 7 := by decide
  simp [tmp_name, h7]

theorem tmp_name_ne (cp : String) : cp ≠ tmp_name cp := by
  intro h
  have hl : cp.length = (tmp_name cp).length := by rw [← h]
  rw [tmp_name_length] at hl
  omega

theorem cache_path_of_length (rel : String) :
    (cache_path_of rel).length = 14 + rel.length := by
  have h14 : (CACHE_DIR : String).length = 14 := by decide
  simp [cache_path_of, h14]

/-- A successful `ensure_cached_file` implies the cache path was
    representable and the final cache path exists in the resulting state. -/
theorem ensure_ok_cached {env : Env} {rel : String} {st st1 : St}
    (h1 : ensure_cached_file env rel st = (true, st1)) :
    cache_path_for rel = some (cache_path_of rel) ∧
    (fsLookup st1.fs (cache_path_of rel)).isSome := by
  cases hcp : cache_path_for rel with
  | none => rw [ensure_file_nopath hcp] at h1; simp at h1
  | some cp =>
    have hcpe := cache_path_for_some hcp
    subst hcpe
    refine ⟨rfl, ?_⟩
    cases hlk : fsLookup st.fs (cache_path_of rel) with
    | some node =>
      rw [ensure_file_hit hcp hlk] at h1
      injection h1 with h1a h1b
      rw [← h1b, hlk]; rfl
    | none =>
      rcases hrs : remote_stat env.host (strBytes rel) st.net with ⟨ors, net'⟩
      cases ors with
      | none =>
        rw [ensure_file_statfail hcp hlk hrs] at h1
        simp at h1
      | some rst =>
        by_cases hdir : S_ISDIR rst.mode = true
        · rw [ensure_file_dir hcp hlk hrs hdir] at h1
          injection h1 with h1a h1b
          rw [← h1b]
          exact fsLookup_fsMkdir_self _ _
        · rw [ensure_file_reg hcp hlk hrs (by simpa using hdir)] at h1
          by_cases hmk : PATH_MAX ≤ (tmp_name (cache_path_of rel)).length
              ∨ env.mkstempOk = false
          · rw [if_pos hmk] at h1; simp at h1
          · rw [if_neg hmk] at h1
            have hdl1 : (dl_loop env (strBytes rel) (cache_path_of rel)
                (tmp_name (cache_path_of rel)) rst.size rst.size 0
                { net := net',
                  fs := fsInsert (mkdirs st.fs (cache_path_of rel))
                    (tmp_name (cache_path_of rel)) (FSNode.file []),
                  writes := st.writes }).1 = true := by rw [h1]
            have hok := dl_loop_ok env (strBytes rel) (cache_path_of rel)
              (tmp_name (cache_path_of rel)) rst.size rst.size 0 _
              (by rw [fsLookup_fsInsert_self]; rfl) hdl1
            rw [h1] at hok
            exact hok

/- ---- C4 ---- -/

/-- C4: whenever populating a workspace file into the cache fails — remote
    stat failure, read-chunk failure, local write failure, mkstemp failure,
    or rename failure — the temporary file is absent afterwards and the
    final cache path is bound exactly as it was before the call: a partial
    download is never observable at the final cache path.  (The model takes
    the `mkstemp` name as initially absent, which is what `mkstemp`
    guarantees.) -/
theorem c4_failure_removes_partial (env : Env) (rel : String) (st : St)
    (htmp : fsLookup st.fs (tmp_name (cache_path_of rel)) = none)
    (hf : (ensure_cached_file env rel st).1 = false) :
    fsLookup (ensure_cached_file env rel st).2.fs (tmp_name (cache_path_of rel))
      = none ∧
    fsLookup (ensure_cached_file env rel st).2.fs (cache_path_of rel)
      = fsLookup st.fs (cache_path_of rel) := by
  have h14 : 14 ≤ (cache_path_of rel).length := by rw [cache_path_of_length]; omega
  have htlen := tmp_name_length (cache_path_of rel)
  cases hcp : cache_path_for rel with
  | none => rw [ensure_file_nopath hcp]; exact ⟨htmp, rfl⟩
  | some cp =>
    have hcpe := cache_path_for_some hcp
    subst hcpe
    cases hlk : fsLookup st.fs (cache_path_of rel) with
    | some node =>
      rw [ensure_file_hit hcp hlk] at hf
      exact absurd hf (by simp)
    | none =>
      rcases hrs : remote_stat env.host (strBytes rel) st.net with ⟨ors, net'⟩
      cases ors with
      | none =>
        rw [ensure_file_statfail hcp hlk hrs]
        exact ⟨htmp, hlk⟩
      | some rst =>
        by_cases hdir : S_ISDIR rst.mode = true
        · rw [ensure_file_dir hcp hlk hrs hdir] at hf
          exact absurd hf (by simp)
        · rw [ensure_file_reg hcp hlk hrs (by simpa using hdir)] at hf ⊢
          by_cases hmk : PATH_MAX ≤ (tmp_name (cache_path_of rel)).length
              ∨ env.mkstempOk = false
          · rw [if_pos hmk]
            constructor
            · exact (fsLookup_mkdirs st.fs _ _ (by omega) (by omega)).trans htmp
            · exact (fsLookup_mkdirs st.fs _ _ h14 (le_refl _)).trans hlk
          · rw [if_neg hmk] at hf ⊢
            have hne := tmp_name_ne (cache_path_of rel)
            have hdl := dl_loop_fail env (strBytes rel) (cache_path_of rel)
              (tmp_name (cache_path_of rel)) rst.size hne rst.size 0
              { net := net',
                fs := fsInsert (mkdirs st.fs (cache_path_of rel))
                  (tmp_name (cache_path_of rel)) (FSNode.file []),
                writes := st.writes } hf
            refine ⟨hdl.1, hdl.2.trans ?_⟩
            exact (fsLookup_fsInsert_ne _ _ _ _ hne).trans
              ((fsLookup_mkdirs st.fs _ _ h14 (le_refl _)).trans hlk)

/-- C4 witness: a host whose send always fails makes `ensure` fail; nothing
    appears at the temporary or final cache path. -/
theorem c4_failure_removes_partial_witness :
    fsLookup (ensure_cached_file testEnv "a.txt" emptySt).2.fs
        (tmp_name (cache_path_of "a.txt")) = none ∧
    fsLookup (ensure_cached_file testEnv "a.txt" emptySt).2.fs
        (cache_path_of "a.txt") = fsLookup emptySt.fs (cache_path_of "a.txt") :=
  c4_failure_removes_partial testEnv "a.txt" emptySt (by decide) (by decide)

/- ---- C5 ---- -/

/-- C5: if the deterministic cache path for `rel` already exists (file or
    directory), `ensure_cached_file` returns success immediately with the
    whole process state — in particular the remote-request trace —
    unchanged, and `ensure_cached_stat` answers from the local cache; and
    once `ensure_cached_file` has succeeded, running it again (under any
    environment, i.e. any host behaviour) succeeds with the state unchanged,
    so a second open of the same workspace path performs zero STAT and zero
    READ calls and just re-opens the cache file. -/
theorem c5_ensure_idempotent (env : Env) (rel : String) (st st1 : St) :
    (∀ node, fsLookup st.fs (cache_path_of rel) = some node →
        (cache_path_of rel).length < PATH_MAX →
        ensure_cached_file env rel st = (true, st)) ∧
    (∀ (h : Host) node, fsLookup st.fs (cache_path_of rel) = some node →
        (cache_path_of rel).length < PATH_MAX →
        ensure_cached_stat h rel st = (some (localStat node), st)) ∧
    (ensure_cached_file env rel st = (true, st1) →
      ∀ env2 : Env, ensure_cached_file env2 rel st1 = (true, st1)) ∧
    (∀ (env2 : Env) (dirfd : DirFd) (p resolved : String) (flags mode : Nat),
      ensure_cached_file env rel st = (true, st1) →
      resolve_path env2 dirfd p = some resolved → ws_rel resolved = some rel →
      rel ≠ "" → Nat.land flags (Nat.lor O_WRONLY O_RDWR) = 0 →
      openat env2 dirfd (some p) flags mode false st1
        = (env2.realOpenat DirFd.cwd (some (cache_path_of rel))
             (strip_flags flags) 0, st1)) := by
  have hcpfor : (cache_path_of rel).length < PATH_MAX →
      cache_path_for rel = some (cache_path_of rel) := by
    intro hfit; unfold cache_path_for; rw [if_neg (by omega)]
  refine ⟨?_, ?_, ?_, ?_⟩
  · intro node hlk hfit
    exact ensure_file_hit (hcpfor hfit) hlk
  · intro h node hlk hfit
    exact ensure_stat_hit (hcpfor hfit) hlk
  · intro h1 env2
    obtain ⟨hcp, hsome⟩ := ensure_ok_cached h1
    obtain ⟨node, hnode⟩ := Option.isSome_iff_exists.mp hsome
    exact ensure_file_hit hcp hnode
  · intro env2 dirfd p resolved flags mode h1 hres hws hrel hnw
    obtain ⟨hcp, hsome⟩ := ensure_ok_cached h1
    obtain ⟨node, hnode⟩ := Option.isSome_iff_exists.mp hsome
    rw [openat_ns hres hws, if_neg (by simp [hnw]), if_neg hrel]
    simp only [@ensure_file_hit env2 rel (cache_path_of rel) st1 node hcp hnode, hcp]

/-- C5 witness: with `a.txt` already cached, `ensure` succeeds against a
    dead host without any state change, and a second open delegates straight
    to the cache file. -/
theorem c5_ensure_idempotent_witness :
    ensure_cached_file testEnv "a.txt" cachedSt = (true, cachedSt) ∧
    ensure_cached_stat downHost "a.txt" cachedSt
      = (some (localStat (FSNode.file [1, 2, 3])), cachedSt) ∧
    openat testEnv DirFd.cwd (some "/workspace/a.txt") 0 0 false cachedSt
      = (testEnv.realOpenat DirFd.cwd (some (cache_path_of "a.txt"))
           (strip_flags 0) 0, cachedSt) := by
  have h := c5_ensure_idempotent testEnv "a.txt" cachedSt cachedSt
  refine ⟨h.1 (FSNode.file [1, 2, 3]) (by decide) (by decide),
    h.2.1 downHost (FSNode.file [1, 2, 3]) (by decide) (by decide),
    h.2.2.2 testEnv DirFd.cwd "/workspace/a.txt" "/workspace/a.txt" 0 0
      (h.1 (FSNode.file [1, 2, 3]) (by decide) (by decide))
      (by decide) (by decide) (by decide) (by decide)⟩

/- ---- C8 ---- -/

/-- C8: an in-namespace, non-root open that passes the read-only check and
    whose cache population succeeds delegates to the real `openat` targeted
    at the local cache path, with `O_CREAT` and `O_EXCL` masked out of the
    flag argument, and returns that real call's result unchanged; the
    delegated flag word carries no write-intent or creation flag (bits 0
    `O_WRONLY`, 1 `O_RDWR`, 6 `O_CREAT`, 7 `O_EXCL` are all clear). -/
theorem c8_success_delegates_stripped (env : Env) (dirfd : DirFd)
    (p resolved rel : String) (flags mode : Nat) (st st1 : St)
    (hres : resolve_path env dirfd p = some resolved)
    (hws : ws_rel resolved = some rel) (hrel : rel ≠ "")
    (hnw : Nat.land flags (Nat.lor O_WRONLY O_RDWR) = 0)
    (hens : ensure_cached_file env rel st = (true, st1)) :
    openat env dirfd (some p) flags mode false st
      = (env.realOpenat DirFd.cwd (some (cache_path_of rel))
           (strip_flags flags) 0, st1) ∧
    (strip_flags flags).testBit 0 = false ∧
    (strip_flags flags).testBit 1 = false ∧
    (strip_flags flags).testBit 6 = false ∧
    (strip_flags flags).testBit 7 = false := by
  obtain ⟨hcp, _⟩ := ensure_ok_cached hens
  have hnw3 : Nat.land flags 3 = 0 := by
    have h3 : Nat.lor O_WRONLY O_RDWR = 3 := by decide
    rwa [h3] at hnw
  have hb0 : flags.testBit 0 = false := by
    have h := congrArg (fun m => Nat.testBit m 0) hnw3
    simp only [show Nat.land flags 3 = flags &&& 3 from rfl, Nat.testBit_land,
      Nat.zero_testBit, show Nat.testBit 3 0 = true from by decide,
      Bool.and_true] at h
    exact h
  have hb1 : flags.testBit 1 = false := by
    have h := congrArg (fun m => Nat.testBit m 1) hnw3
    simp only [show Nat.land flags 3 = flags &&& 3 from rfl, Nat.testBit_land,
      Nat.zero_testBit, show Nat.testBit 3 1 = true from by decide,
      Bool.and_true] at h
    exact h
  have hmask : ∀ i, (strip_flags flags).testBit i
      = (flags.testBit i && Nat.testBit (2 ^ 32 - 1 - Nat.lor O_CREAT O_EXCL) i) := by
    intro i
    show Nat.testBit (Nat.land flags (2 ^ 32 - 1 - Nat.lor O_CREAT O_EXCL)) i = _
    rw [show Nat.land flags (2 ^ 32 - 1 - Nat.lor O_CREAT O_EXCL)
        = flags &&& (2 ^ 32 - 1 - Nat.lor O_CREAT O_EXCL) from rfl, Nat.testBit_land]
  refine ⟨?_, ?_, ?_, ?_, ?_⟩
  · rw [openat_ns hres hws, if_neg (by simp [hnw]), if_neg hrel]
    simp only [hens, hcp]
  · rw [hmask 0, hb0]; rfl
  · rw [hmask 1, hb1]; rfl
  · rw [hmask 6,
      show Nat.testBit (2 ^ 32 - 1 - Nat.lor O_CREAT O_EXCL) 6 = false from by decide]
    simp
  · rw [hmask 7,
      show Nat.testBit (2 ^ 32 - 1 - Nat.lor O_CREAT O_EXCL) 7 = false from by decide]
    simp

/-- C8 witness: open of the already-cached `a.txt` with `O_CREAT` set (but
    no write flag): delegated to the cache path with `O_CREAT` stripped. -/
theorem c8_success_delegates_stripped_witness :
    openat testEnv DirFd.cwd (some "/workspace/a.txt") 64 438 false cachedSt
      = (testEnv.realOpenat DirFd.cwd (some (cache_path_of "a.txt"))
           (strip_flags 64) 0, cachedSt) ∧
    (strip_flags 64).testBit 0 = false ∧
    (strip_flags 64).testBit 1 = false ∧
    (strip_flags 64).testBit 6 = false ∧
    (strip_flags 64).testBit 7 = false := by
  have hens : ensure_cached_file testEnv "a.txt" cachedSt = (true, cachedSt) :=
    @ensure_file_hit testEnv "a.txt" "/tmp/.wscache/a.txt" cachedSt
      (FSNode.file [1, 2, 3]) (by decide) (by decide)
  exact c8_success_delegates_stripped testEnv DirFd.cwd "/workspace/a.txt"
    "/workspace/a.txt" "a.txt" 64 438 cachedSt cachedSt
    (by decide) (by decide) (by decide) (by decide) hens

/- ---- Lemmas for the concrete download scenario (C1) ---- -/

theorem fsLookup_fsAppend_file (fs : FS) (p : String) (d0 data : List Nat)
    (h : fsLookup fs p = some (FSNode.file d0)) :
    fsLookup (fsAppend fs p data) p = some (FSNode.file (d0 ++ data)) := by
  unfold fsAppend
  rw [h]
  exact fsLookup_fsInsert_self _ _ _

theorem fsLookup_fsRename_dst (fs : FS) (src dst : String) (n : FSNode)
    (h : fsLookup fs src = some n) :
    fsLookup (fsRename fs src dst) dst = some n := by
  unfold fsRename
  rw [h]
  exact fsLookup_fsInsert_self _ _ _

/-- A READ exchange on an established connection served in full: the host
    frames `[OK][bytes_read = len][len octets]` and the client returns
    exactly those octets. -/
theorem remote_read_full {h : Host} {relB : List Nat} {offset len : Nat}
    {net : Net} {data : List Nat} (hconn : net.conn.connected = true)
    (hr : h.reply (read_msg relB offset len)
      = HostReply.stream (frameOf ([STATUS_OK] ++ be32 len ++ data)))
    (hlen : data.length = len) (hpos : 0 < len)
    (hmax : len ≤ 16 * 1024 * 1024 - 5) (hbytes : ∀ x ∈ data, x < 256) :
    remote_read_chunk h relB offset len net
      = (some data,
         { conn := net.conn, reqs := net.reqs ++ [read_msg relB offset len] }) := by
  have hvc : vsock_connect h net.conn = some net.conn := by
    unfold vsock_connect; rw [hconn]; simp
  have hplen : ([STATUS_OK] ++ be32 len ++ data).length = 5 + len := by
    simp [be32, STATUS_OK, hlen]; omega
  have hsr : send_request (h.reply (read_msg relB offset len))
      = some ([STATUS_OK] ++ be32 len ++ data) := by
    rw [hr, send_request_frameOf _ (by rw [hplen]; omega)
      (by rw [hplen]; unfold FRAME_MAX; omega)]
    rw [List.map_append, List.map_append, map_mod_be32, map_mod_of_lt data hbytes]
    simp [STATUS_OK]
  have hdrop1 : ([STATUS_OK] ++ be32 len ++ data).drop 1 = be32 len ++ data := by
    simp [STATUS_OK]
  have hbr : rd32 (([STATUS_OK] ++ be32 len ++ data).drop 1) = len := by
    rw [hdrop1, rd32_be32_append]
    exact Nat.mod_eq_of_lt (by omega)
  have hdrop5 : ([STATUS_OK] ++ be32 len ++ data).drop 5 = data := by
    simp [STATUS_OK, be32]
  have htake : (data.take len).take len = data := by
    rw [← hlen, List.take_length, List.take_length]
  unfold remote_read_chunk
  simp only [hvc, hsr]
  rw [if_neg (by simp [STATUS_OK]), if_neg (by rw [hplen]; omega), hbr, hdrop5, htake]

/-- The scenario host answers STAT for `foo.txt` with mode 0644, size
    3,000,000, mtime 1000, is_dir = 0. -/
theorem scHost_stat (content : Nat → Nat) (net : Net)
    (hdis : net.conn.connected = false) :
    remote_stat (scHost content) fooB net
      = (some { mode := 33188, size := 3000000, mtime := 1000, nlink := 1,
                blksize := 4096, blocks := 5860 },
         { conn := { connected := true, connects := net.conn.connects + 1 },
           reqs := net.reqs ++ [stat_msg fooB] }) := by
  have hvc : vsock_connect (scHost content) net.conn
      = some { connected := true, connects := net.conn.connects + 1 } := by
    unfold vsock_connect scHost; rw [hdis]; simp
  have hreply : (scHost content).reply (stat_msg fooB)
      = HostReply.stream (frameOf
          ([STATUS_OK] ++ be32 420 ++ be64 3000000 ++ be64 1000 ++ [0])) := by
    unfold scHost
    simp
  have hsr : send_request ((scHost content).reply (stat_msg fooB))
      = some ([STATUS_OK] ++ be32 420 ++ be64 3000000 ++ be64 1000 ++ [0]) := by
    rw [hreply, send_request_frameOf _ (by decide) (by decide)]
    decide
  unfold remote_stat
  simp only [hvc, hsr]
  norm_num [STATUS_OK, be32, be64, rd32, rd64, S_IFREG]
  decide

/-- The scenario host serves the first 1 MiB chunk in full. -/
theorem scHost_read0 (content : Nat → Nat) (net : Net)
    (hconn : net.conn.connected = true) :
    remote_read_chunk (scHost content) fooB 0 1048576 net
      = (some (scChunk content 0 1048576),
         { conn := net.conn, reqs := net.reqs ++ [read_msg fooB 0 1048576] }) := by
  refine remote_read_full hconn ?_ (scChunk_length content 0 1048576)
    (by norm_num) (by norm_num) ?_
  · unfold scHost
    simp [show read_msg fooB 0 1048576 ≠ stat_msg fooB from by decide]
  · intro x hx
    simp only [scChunk, List.mem_map] at hx
    obtain ⟨i, _, hxe⟩ := hx
    omega

/-- The scenario host serves the second 1 MiB chunk in full. -/
theorem scHost_read1 (content : Nat → Nat) (net : Net)
    (hconn : net.conn.connected = true) :
    remote_read_chunk (scHost content) fooB 1048576 1048576 net
      = (some (scChunk content 1048576 1048576),
         { conn := net.conn, reqs := net.reqs ++ [read_msg fooB 1048576 1048576] }) := by
  refine remote_read_full hconn ?_ (scChunk_length content 1048576 1048576)
    (by norm_num) (by norm_num) ?_
  · unfold scHost
    simp [show read_msg fooB 1048576 1048576 ≠ stat_msg fooB from by decide,
      show read_msg fooB 1048576 1048576 ≠ read_msg fooB 0 1048576 from by decide]
  · intro x hx
    simp only [scChunk, List.mem_map] at hx
    obtain ⟨i, _, hxe⟩ := hx
    omega

/-- The scenario host serves the final 902,848-octet chunk in full. -/
theorem scHost_read2 (content : Nat → Nat) (net : Net)
    (hconn : net.conn.connected = true) :
    remote_read_chunk (scHost content) fooB 2097152 902848 net
      = (some (scChunk content 2097152 902848),
         { conn := net.conn, reqs := net.reqs ++ [read_msg fooB 2097152 902848] }) := by
  refine remote_read_full hconn ?_ (scChunk_length content 2097152 902848)
    (by norm_num) (by norm_num) ?_
  · unfold scHost
    simp [show read_msg fooB 2097152 902848 ≠ stat_msg fooB from by decide,
      show read_msg fooB 2097152 902848 ≠ read_msg fooB 0 1048576 from by decide,
      show read_msg fooB 2097152 902848 ≠ read_msg fooB 1048576 1048576 from by decide]
  · intro x hx
    simp only [scChunk, List.mem_map] at hx
    obtain ⟨i, _, hxe⟩ := hx
    omega

/-- The download loop of the concrete scenario, unrolled: three full READs
    at offsets 0, 1,048,576 and 2,097,152 (the last one asking for the
    remaining 902,848 octets), then the rename of the finished temporary
    file onto the cache path. -/
theorem sc_dl_loop (env : Env) (content : Nat → Nat) (cp tmp : String)
    (hhost : env.host = scHost content) (hwf : env.writeFails = fun _ => false)
    (hrn : env.renameOk = true) (k w : Nat) (rs : List (List Nat)) (fs : FS) :
    dl_loop env fooB cp tmp 3000000 3000000 0
      { net := { conn := { connected := true, connects := k }, reqs := rs },
        fs := fs, writes := w }
      = (true,
         { net := { conn := { connected := true, connects := k },
                    reqs := rs ++ [read_msg fooB 0 1048576,
                      read_msg fooB 1048576 1048576, read_msg fooB 2097152 902848] },
           fs := fsRename
                   (fsAppend (fsAppend (fsAppend fs tmp (scChunk content 0 1048576))
                     tmp (scChunk content 1048576 1048576))
                     tmp (scChunk content 2097152 902848))
                   tmp cp,
           writes := w + 3 }) := by
  have hrc0 : remote_read_chunk env.host fooB 0
      (if 3000000 - 0 < READ_CHUNK_SIZE then 3000000 - 0 else READ_CHUNK_SIZE)
      { conn := { connected := true, connects := k }, reqs := rs }
      = (some (scChunk content 0 1048576),
         { conn := { connected := true, connects := k },
           reqs := rs ++ [read_msg fooB 0 1048576] }) := by
    rw [show (if 3000000 - 0 < READ_CHUNK_SIZE then 3000000 - 0 else READ_CHUNK_SIZE)
        = 1048576 from by decide, hhost]
    simpa using scHost_read0 content
      { conn := { connected := true, connects := k }, reqs := rs } rfl
  rw [dl_loop_read_some (by decide) (by decide) hrc0,
    if_neg (by rw [scChunk_length]; decide), if_neg (by simp [hwf])]
  simp only [scChunk_length]
  norm_num
  have hrc1 : remote_read_chunk env.host fooB 1048576
      (if 3000000 - 1048576 < READ_CHUNK_SIZE then 3000000 - 1048576 else READ_CHUNK_SIZE)
      { conn := { connected := true, connects := k },
        reqs := rs ++ [read_msg fooB 0 1048576] }
      = (some (scChunk content 1048576 1048576),
         { conn := { connected := true, connects := k },
           reqs := (rs ++ [read_msg fooB 0 1048576])
             ++ [read_msg fooB 1048576 1048576] }) := by
    rw [show (if 3000000 - 1048576 < READ_CHUNK_SIZE then 3000000 - 1048576
        else READ_CHUNK_SIZE) = 1048576 from by decide, hhost]
    simpa using scHost_read1 content
      { conn := { connected := true, connects := k },
        reqs := rs ++ [read_msg fooB 0 1048576] } rfl
  rw [dl_loop_read_some (by decide) (by decide) hrc1,
    if_neg (by rw [scChunk_length]; decide), if_neg (by simp [hwf])]
  simp only [scChunk_length]
  norm_num
  have hrc2 : remote_read_chunk env.host fooB 2097152
      (if 3000000 - 2097152 < READ_CHUNK_SIZE then 3000000 - 2097152 else READ_CHUNK_SIZE)
      { conn := { connected := true, connects := k },
        reqs := rs ++ [read_msg fooB 0 1048576, read_msg fooB 1048576 1048576] }
      = (some (scChunk content 2097152 902848),
         { conn := { connected := true, connects := k },
           reqs := (rs ++ [read_msg fooB 0 1048576, read_msg fooB 1048576 1048576])
             ++ [read_msg fooB 2097152 902848] }) := by
    rw [show (if 3000000 - 2097152 < READ_CHUNK_SIZE then 3000000 - 2097152
        else READ_CHUNK_SIZE) = 902848 from by decide, hhost]
    simpa using scHost_read2 content
      { conn := { connected := true, connects := k },
        reqs := rs ++ [read_msg fooB 0 1048576, read_msg fooB 1048576 1048576] } rfl
  rw [dl_loop_read_some (by decide) (by decide) hrc2,
    if_neg (by rw [scChunk_length]; decide), if_neg (by simp [hwf])]
  simp only [scChunk_length]
  norm_num
  rw [dl_loop_exit (by decide)]
  simp [dl_finish, hrn, List.append_assoc]
  try omega

/- ---- C1 ---- -/

/-- C1: against a host whose STAT for `foo.txt` reports mode 0644, size
    3,000,000, mtime 1000, is_dir = 0 and which serves every READ in full
    with deterministic content, opening the uncached `/workspace/foo.txt`
    read-only issues exactly one STAT and exactly three READs — at offsets
    0, 1,048,576 and 2,097,152, the 1 MiB chunking asking for 1,048,576,
    1,048,576 and the remaining 902,848 octets — then opens the cache file;
    the cache file holds exactly the concatenation of the three served
    chunks, 3,000,000 octets long. -/
theorem c1_concrete_scenario (env : Env) (content : Nat → Nat) (st : St)
    (hhost : env.host = scHost content)
    (hwf : env.writeFails = fun _ => false)
    (hmk : env.mkstempOk = true) (hrn : env.renameOk = true)
    (hmiss : fsLookup st.fs "/tmp/.wscache/foo.txt" = none)
    (hdis : st.net.conn.connected = false) :
    (openat env DirFd.cwd (some "/workspace/foo.txt") O_RDONLY 0 false st).1
      = env.realOpenat DirFd.cwd (some "/tmp/.wscache/foo.txt") 0 0 ∧
    (openat env DirFd.cwd (some "/workspace/foo.txt") O_RDONLY 0 false st).2.net.reqs
      = st.net.reqs ++ [stat_msg fooB, read_msg fooB 0 1048576,
          read_msg fooB 1048576 1048576, read_msg fooB 2097152 902848] ∧
    fsLookup (openat env DirFd.cwd (some "/workspace/foo.txt") O_RDONLY 0 false st).2.fs
        "/tmp/.wscache/foo.txt"
      = some (FSNode.file (scChunk content 0 1048576
          ++ scChunk content 1048576 1048576 ++ scChunk content 2097152 902848)) ∧
    (scChunk content 0 1048576 ++ scChunk content 1048576 1048576
      ++ scChunk content 2097152 902848).length = 3000000 := by
  have hres : resolve_path env DirFd.cwd "/workspace/foo.txt"
      = some "/workspace/foo.txt" := by
    unfold resolve_path
    rw [if_pos (by decide), if_neg (by decide)]
  have hws : ws_rel "/workspace/foo.txt" = some "foo.txt" := by decide
  have hcp : cache_path_for "foo.txt" = some "/tmp/.wscache/foo.txt" := by decide
  have hstat : remote_stat env.host (strBytes "foo.txt") st.net
      = (some { mode := 33188, size := 3000000, mtime := 1000, nlink := 1,
                blksize := 4096, blocks := 5860 },
         { conn := { connected := true, connects := st.net.conn.connects + 1 },
           reqs := st.net.reqs ++ [stat_msg fooB] }) := by
    rw [hhost]
    exact scHost_stat content st.net hdis
  have hens : ensure_cached_file env "foo.txt" st
      = (true,
         { net := { conn := { connected := true, connects := st.net.conn.connects + 1 },
                    reqs := (st.net.reqs ++ [stat_msg fooB])
                      ++ [read_msg fooB 0 1048576, read_msg fooB 1048576 1048576,
                          read_msg fooB 2097152 902848] },
           fs := fsRename
                   (fsAppend (fsAppend (fsAppend
                       (fsInsert (mkdirs st.fs "/tmp/.wscache/foo.txt")
                         (tmp_name "/tmp/.wscache/foo.txt") (FSNode.file []))
                       (tmp_name "/tmp/.wscache/foo.txt") (scChunk content 0 1048576))
                     (tmp_name "/tmp/.wscache/foo.txt") (scChunk content 1048576 1048576))
                     (tmp_name "/tmp/.wscache/foo.txt") (scChunk content 2097152 902848))
                   (tmp_name "/tmp/.wscache/foo.txt") "/tmp/.wscache/foo.txt",
           writes := st.writes + 3 }) := by
    rw [ensure_file_reg hcp hmiss hstat (by decide), if_neg (by rw [hmk]; decide)]
    exact sc_dl_loop env content "/tmp/.wscache/foo.txt" (tmp_name "/tmp/.wscache/foo.txt")
      hhost hwf hrn (st.net.conn.connects + 1) st.writes
      (st.net.reqs ++ [stat_msg fooB])
      (fsInsert (mkdirs st.fs "/tmp/.wscache/foo.txt")
        (tmp_name "/tmp/.wscache/foo.txt") (FSNode.file []))
  rw [openat_ns hres hws, if_neg (by decide), if_neg (by decide), hens, hcp]
  refine ⟨?_, ?_, ?_, ?_⟩
  · rw [show strip_flags O_RDONLY = 0 from by decide]
  · exact List.append_assoc _ _ _
  · have l0 : fsLookup (fsInsert (mkdirs st.fs "/tmp/.wscache/foo.txt")
        (tmp_name "/tmp/.wscache/foo.txt") (FSNode.file []))
        (tmp_name "/tmp/.wscache/foo.txt") = some (FSNode.file []) :=
      fsLookup_fsInsert_self _ _ _
    have l1 := fsLookup_fsAppend_file _ _ _ (scChunk content 0 1048576) l0
    have l2 := fsLookup_fsAppend_file _ _ _ (scChunk content 1048576 1048576) l1
    have l3 := fsLookup_fsAppend_file _ _ _ (scChunk content 2097152 902848) l2
    have lr := fsLookup_fsRename_dst _ _ "/tmp/.wscache/foo.txt" _ l3
    exact lr.trans (by rw [List.nil_append])
  · rw [List.length_append, List.length_append, scChunk_length, scChunk_length,
      scChunk_length]

/-- C1 witness: the scenario run from the pristine initial state. -/
theorem c1_concrete_scenario_witness :
    (openat scEnv DirFd.cwd (some "/workspace/foo.txt") O_RDONLY 0 false emptySt).1
      = scEnv.realOpenat DirFd.cwd (some "/tmp/.wscache/foo.txt") 0 0 ∧
    (openat scEnv DirFd.cwd (some "/workspace/foo.txt") O_RDONLY 0 false emptySt).2.net.reqs
      = emptySt.net.reqs ++ [stat_msg fooB, read_msg fooB 0 1048576,
          read_msg fooB 1048576 1048576, read_msg fooB 2097152 902848] ∧
    fsLookup (openat scEnv DirFd.cwd (some "/workspace/foo.txt") O_RDONLY 0 false
        emptySt).2.fs "/tmp/.wscache/foo.txt"
      = some (FSNode.file (scChunk scContent 0 1048576
          ++ scChunk scContent 1048576 1048576 ++ scChunk scContent 2097152 902848)) ∧
    (scChunk scContent 0 1048576 ++ scChunk scContent 1048576 1048576
      ++ scChunk scContent 2097152 902848).length = 3000000 :=
  c1_concrete_scenario scEnv scContent emptySt rfl rfl rfl rfl (by decide) rfl

end LibWorkspace
